import Mathlib

/-!
# kubernetesNetAwareScheduler: the scheduling decision pipeline

A shallow embedding of `src/scheduler/scheduler.go`.

* Go `map` values are association lists; a `range` statement over a map visits
  the entries in an order chosen by the runtime, so every function that ranges
  over a map takes the entries as the list in which they are visited.
* Go `int` is the 64-bit signed integer; the code compares readings and adds
  scores of at most 11, so `Int` is exact here.
* `float64` readings are only ever compared by the scoring code.  `F64` keeps the
  four kinds of value the comparison distinguishes.  The arithmetic on them and
  the parsing of numerals are library code and enter as the parameter `GoLib`.
* A Go string is the list of its bytes; the exposition text is ASCII, one
  `Char` per byte.
* A run-time panic is the `error` case of `Go`.
-/

namespace NetAwareScheduler

/-! ## float64 values, as far as `<` and `>` can tell them apart -/

/-- A `float64` value: not-a-number, the two infinities, or a finite value. -/
inductive F64 where
  | nan : F64
  | negInf : F64
  | fin (q : ℚ) : F64
  | posInf : F64
  deriving DecidableEq

namespace F64

/-- Go `a < b` on `float64`: false as soon as one side is not-a-number. -/
def lt : F64 → F64 → Bool
  | nan, _ => false
  | _, nan => false
  | negInf, negInf => false
  | negInf, _ => true
  | fin _, negInf => false
  | fin a, fin b => decide (a < b)
  | fin _, posInf => true
  | posInf, _ => false

/-- Go `a > b` on `float64`. -/
def gt (a b : F64) : Bool := lt b a

end F64

/-! ## Data model -/

/-- The struct `PrometheusNodeMetrics` (lines 24-32). -/
structure PrometheusNodeMetrics where
  nodeName : String
  cpuFrequencyHertz : F64
  occupiedMemoryPercentage : F64
  networkPacketsReceived : Int
  networkPacketsSent : Int
  networkBandwith : F64
  diskIONow : Int
  deriving DecidableEq

/-- A Go `map[string]int`, as the list of its entries. -/
abbrev PriorityTable := List (String × Int)

/-- Go `m[k]` on a `map[string]int`: the value stored under `k`, `0` when absent. -/
def PriorityTable.get (t : PriorityTable) (k : String) : Int :=
  match t with
  | [] => 0
  | (k', v) :: rest => if k' = k then v else PriorityTable.get rest k

/-- Go `m[k] += w` on a `map[string]int`: adds to the stored value, or stores
`0 + w` under a new key. -/
def PriorityTable.addTo (t : PriorityTable) (k : String) (w : Int) : PriorityTable :=
  match t with
  | [] => [(k, w)]
  | (k', v) :: rest =>
      if k' = k then (k', v + w) :: rest else (k', v) :: PriorityTable.addTo rest k w

/-- The sum of all scores of a table. -/
def PriorityTable.total (t : PriorityTable) : Int := (t.map Prod.snd).sum

/-- The keys of a table. -/
def PriorityTable.keys (t : PriorityTable) : List String := t.map Prod.fst

/-! ## The scorer: `prioritize` (lines 248-368) and `findBestNode` (lines 384-394) -/

/-- The local variables the scoring loop of `prioritize` updates: the running
best readings `sampleMetrics` and the six best-node names. -/
structure ScoreState where
  sampleMetrics : PrometheusNodeMetrics
  bestCpuNode : String
  bestMemNode : String
  bestNetSentNode : String
  bestNetRecNode : String
  bestNetBandwith : String
  bestDiskNode : String

/-- The variables as initialised on lines 258-272.  The composite literal for
`sampleMetrics` does not list `networkBandwith`, which is therefore `0`. -/
def initScoreState : ScoreState where
  sampleMetrics :=
    { nodeName := "sample"
      cpuFrequencyHertz := F64.fin 99999999999
      occupiedMemoryPercentage := F64.fin 99999999999
      networkPacketsReceived := 99999999999
      networkPacketsSent := 99999999999
      networkBandwith := F64.fin 0
      diskIONow := 999 }
  bestCpuNode := "none"
  bestMemNode := "none"
  bestNetSentNode := "none"
  bestNetRecNode := "none"
  bestNetBandwith := "none"
  bestDiskNode := "none"

/-- The `if` statement of lines 335-338, for the map entry `node ↦ nodeStats`. -/
def cpuStep (node : String) (nodeStats : PrometheusNodeMetrics) (s : ScoreState) : ScoreState :=
  if F64.lt nodeStats.cpuFrequencyHertz s.sampleMetrics.cpuFrequencyHertz then
    { s with
      sampleMetrics := { s.sampleMetrics with cpuFrequencyHertz := nodeStats.cpuFrequencyHertz }
      bestCpuNode := node }
  else s

/-- The `if` statement of lines 339-342. -/
def memStep (node : String) (nodeStats : PrometheusNodeMetrics) (s : ScoreState) : ScoreState :=
  if F64.lt nodeStats.occupiedMemoryPercentage s.sampleMetrics.occupiedMemoryPercentage then
    { s with
      sampleMetrics :=
        { s.sampleMetrics with occupiedMemoryPercentage := nodeStats.occupiedMemoryPercentage }
      bestMemNode := node }
  else s

/-- The `if` statement of lines 343-346. -/
def recStep (node : String) (nodeStats : PrometheusNodeMetrics) (s : ScoreState) : ScoreState :=
  if nodeStats.networkPacketsReceived < s.sampleMetrics.networkPacketsReceived then
    { s with
      sampleMetrics :=
        { s.sampleMetrics with networkPacketsReceived := nodeStats.networkPacketsReceived }
      bestNetRecNode := node }
  else s

/-- The `if` statement of lines 347-350. -/
def sentStep (node : String) (nodeStats : PrometheusNodeMetrics) (s : ScoreState) : ScoreState :=
  if nodeStats.networkPacketsSent < s.sampleMetrics.networkPacketsSent then
    { s with
      sampleMetrics := { s.sampleMetrics with networkPacketsSent := nodeStats.networkPacketsSent }
      bestNetSentNode := node }
  else s

/-- The `if` statement of lines 351-354: the bandwidth comparison.  Line 353
assigns `bestNetSentNode`; no statement assigns `bestNetBandwith`. -/
def bandwithStep (node : String) (nodeStats : PrometheusNodeMetrics) (s : ScoreState) :
    ScoreState :=
  if F64.gt nodeStats.networkBandwith s.sampleMetrics.networkBandwith then
    { s with
      sampleMetrics := { s.sampleMetrics with networkBandwith := nodeStats.networkBandwith }
      bestNetSentNode := node }
  else s

/-- The `if` statement of lines 355-358. -/
def diskStep (node : String) (nodeStats : PrometheusNodeMetrics) (s : ScoreState) : ScoreState :=
  if nodeStats.diskIONow < s.sampleMetrics.diskIONow ∧ nodeStats.diskIONow ≠ 0 then
    { s with
      sampleMetrics := { s.sampleMetrics with diskIONow := nodeStats.diskIONow }
      bestDiskNode := node }
  else s

/-- One iteration of the loop on lines 334-359, for the map entry `entry`: the
six `if` statements in the order of the source. -/
def scoreStep (s : ScoreState) (entry : String × PrometheusNodeMetrics) : ScoreState :=
  diskStep entry.1 entry.2
    (bandwithStep entry.1 entry.2
      (sentStep entry.1 entry.2
        (recStep entry.1 entry.2
          (memStep entry.1 entry.2
            (cpuStep entry.1 entry.2 s)))))

/-- The loop on lines 334-359 over the entries of `nodeMetricsMap` in the order
in which `range` visits them. -/
def scoringLoop (nodeMetricsMap : List (String × PrometheusNodeMetrics)) : ScoreState :=
  nodeMetricsMap.foldl scoreStep initScoreState

/-- The table `nodePriorities` as initialised on lines 251-256. -/
def initNodePriorities : PriorityTable :=
  [("ubuntu", 0), ("raspiworker0", 0), ("raspiworker1", 0), ("raspiworker2", 0),
   ("raspiworker3", 0)]

/-- The six awards of lines 360-365. -/
def award (s : ScoreState) (nodePriorities : PriorityTable) : PriorityTable :=
  let t := nodePriorities.addTo s.bestCpuNode 3
  let t := t.addTo s.bestMemNode 2
  let t := t.addTo s.bestNetSentNode 1
  let t := t.addTo s.bestNetRecNode 1
  let t := t.addTo s.bestNetBandwith 3
  let t := t.addTo s.bestDiskNode 1
  t

/-- The scoring part of `prioritize` (lines 251-272 and 334-367): the table
returned for the snapshot map `nodeMetricsMap`, given in the order the loop
visits it. -/
def prioritizeScores (nodeMetricsMap : List (String × PrometheusNodeMetrics)) : PriorityTable :=
  award (scoringLoop nodeMetricsMap) initNodePriorities

/-- The loop of `findBestNode`: `maxP` and `bestNode` after the entries. -/
def findBestNodeLoop (acc : Int × String) (priorities : PriorityTable) : Int × String :=
  priorities.foldl (fun a e => if e.2 > a.1 then (e.2, e.1) else a) acc

/-- The function `findBestNode` (lines 384-394); `priorities` lists the entries
in the order `range` visits them. -/
def findBestNode (priorities : PriorityTable) : String :=
  (findBestNodeLoop (0, "") priorities).2

/-! ## The Go runtime and library, as far as the code uses them -/

/-- The run-time panics the code can raise. -/
inductive GoPanic where
  /-- Invalid memory address or nil pointer dereference. -/
  | nilDereference : GoPanic
  /-- Slice bounds out of range. -/
  | sliceBounds : GoPanic
  /-- Index out of range. -/
  | indexOutOfRange : GoPanic
  deriving DecidableEq

/-- A Go computation: its result, or the panic that ends it. -/
abbrev Go (α : Type) := Except GoPanic α

deriving instance DecidableEq for Except

/-- Go `strings.Index(s, substr)` for the part of `s` that starts at byte `i`:
the index of the first occurrence, `-1` when there is none. -/
def stringsIndexFrom (substr : List Char) : List Char → Nat → Int
  | [], i => if substr = [] then (i : Int) else -1
  | c :: rest, i =>
      if substr.isPrefixOf (c :: rest) then (i : Int)
      else stringsIndexFrom substr rest (i + 1)

/-- Go `strings.Index(s, substr)`. -/
def stringsIndex (s substr : List Char) : Int := stringsIndexFrom substr s 0

/-- Go `s[lo:hi]` on a string: panics unless `0 <= lo <= hi <= len(s)`. -/
def goSlice (s : List Char) (lo hi : Int) : Go (List Char) :=
  if 0 ≤ lo ∧ lo ≤ hi ∧ hi ≤ (s.length : Int) then
    .ok ((s.drop lo.toNat).take (hi.toNat - lo.toNat))
  else .error .sliceBounds

/-- The pattern shared by the parsers: `body[Index(body, start)+skip : Index(body, stop)-1]`. -/
def between (body : List Char) (start : String) (skip : Int) (stop : String) : Go (List Char) :=
  goSlice body (stringsIndex body start.toList + skip) (stringsIndex body stop.toList - 1)

/-- The value of a string of decimal digits. -/
def digitsValue (ds : List Char) : Nat :=
  ds.foldl (fun n c => 10 * n + (c.toNat - 48)) 0

/-- Go `strconv.Atoi` with 64-bit `int`: an optional sign and at least one
decimal digit, in the range of `int64`; `none` when it returns an error. -/
def atoi (s : List Char) : Option Int :=
  let signed : Bool × List Char :=
    match s with
    | '-' :: r => (true, r)
    | '+' :: r => (false, r)
    | r => (false, r)
  let ds := signed.2
  if ds = [] ∨ ds.all Char.isDigit = false then none
  else if signed.1 then
    (if digitsValue ds ≤ 2 ^ 63 then some (-(digitsValue ds : Int)) else none)
  else
    (if digitsValue ds < 2 ^ 63 then some (digitsValue ds : Int) else none)

/-- Library functions on `float64` that the code calls and that are taken as
given: `strconv.ParseFloat(s, 32)` (the value returned and whether the error is
non-nil) and the four arithmetic operations. -/
structure GoLib where
  parseFloat : List Char → F64 × Bool
  add : F64 → F64 → F64
  sub : F64 → F64 → F64
  mul : F64 → F64 → F64
  div : F64 → F64 → F64

/-! ## Telemetry: lines 396-549 -/

/-- The fields of `SumReceived` (lines 62-72) that the code reads. -/
structure SumReceived where
  BitsPerSecond : F64

/-- The struct `Stream` (lines 57-60). -/
structure Stream where
  Sender : SumReceived
  Receiver : SumReceived

/-- The fields of `End` (lines 41-46) that the code reads. -/
structure End where
  Streams : List Stream

/-- The fields of `Iperf` (lines 34-39) that the code reads. -/
structure Iperf where
  End : End

/-- What the node agents and the file system answer.
`httpGet address` is the body read from the response of `http.Get(address)`,
`none` when `http.Get` returns an error (and a nil response).
`iperfFile path` is the value `UnmarshalIperf` decodes from the bytes of the
file at `path`, `none` when the file cannot be opened. -/
structure Env where
  httpGet : String → Option (List Char)
  iperfFile : String → Option Iperf

/-- The function `makeHttpRequest` (lines 396-407).  After an error of `http.Get`
the code prints it and goes on to read `resp.Body` with `resp` nil. -/
def makeHttpRequest (env : Env) (address : String) : Go (List Char) :=
  match env.httpGet address with
  | none => .error .nilDereference
  | some body => .ok body

/-- The label of the CPU-frequency sample of core `i`, as written in the
exposition text. -/
def cpuLabel (i : String) : String :=
  "node_cpu_scaling_frequency_hertz\x7bcpu=\"" ++ i ++ "\"\x7d"

/-- The line that follows the CPU-frequency samples (line 421). -/
def cpuStop : String := "# HELP node_cpu_scaling_frequency_max_hrts"

/-- The function `getCurrentCPUUsage` (lines 409-442).  All four slices are
taken before the first `ParseFloat`; a failed parse of the first three samples
only prints, a failed parse of the fourth replaces `i3` by `i2`. -/
def getCurrentCPUUsage (lib : GoLib) (body : List Char) : Go F64 := do
  let substring ← between body (cpuLabel "0") 42 (cpuLabel "1")
  let substring1 ← between body (cpuLabel "1") 42 (cpuLabel "2")
  let substring2 ← between body (cpuLabel "2") 42 (cpuLabel "3")
  let substring3 ← between body (cpuLabel "3") 42 cpuStop
  let i := (lib.parseFloat substring).1
  let i1 := (lib.parseFloat substring1).1
  let i2 := (lib.parseFloat substring2).1
  let i3 := if (lib.parseFloat substring3).2 then i2 else (lib.parseFloat substring3).1
  pure (lib.div (lib.add (lib.add (lib.add i i1) i2) i3) (F64.fin 4))

/-- The function `getOccupiedMemoryPercentage` (lines 444-461). -/
def getOccupiedMemoryPercentage (lib : GoLib) (body : List Char) : Go F64 := do
  let substring ← between body "gauge\nnode_memory_MemTotal_bytes" 33
    "# HELP node_memory_Mlocked_bytes"
  let substring1 ← between body "gauge\nnode_memory_MemAvailable_bytes" 37
    "# HELP node_memory_MemFree_bytes"
  let i := (lib.parseFloat substring).1
  let i1 := (lib.parseFloat substring1).1
  pure (lib.sub (F64.fin 100) (lib.div (lib.mul i1 (F64.fin 100)) i))

/-- The function `getNetworkPacketsSent` (lines 463-480). -/
def getNetworkPacketsSent (body : List Char) (node : String) : Go Int := do
  let substring ←
    if node = "ubuntu" then
      between body "node_network_transmit_packets_total\x7bdevice=\"enp3s0f1\"\x7d" 55
        "node_network_transmit_packets_total\x7bdevice=\"flannel.1\"\x7d"
    else
      between body "node_network_transmit_packets_total\x7bdevice=\"eth0\"\x7d" 51
        "node_network_transmit_packets_total\x7bdevice=\"flannel.1\"\x7d"
  match atoi substring with
  | none => pure 0
  | some i => pure i

/-- The function `getNetworkPacketsReceived` (lines 482-500). -/
def getNetworkPacketsReceived (body : List Char) (node : String) : Go Int := do
  let substring ←
    if node = "ubuntu" then
      between body "node_network_receive_packets_total\x7bdevice=\"enp3s0f1\"\x7d" 54
        "node_network_receive_packets_total\x7bdevice=\"flannel.1\"\x7d"
    else
      between body "node_network_receive_packets_total\x7bdevice=\"eth0\"\x7d" 50
        "node_network_receive_packets_total\x7bdevice=\"flannel.1\"\x7d"
  match atoi substring with
  | none => pure 0
  | some i => pure i

/-- The map `nodeNames` built on lines 505-510. -/
def nodeNames : List (String × String) :=
  [("raspimaster", "/home/192.168.1.133.json"), ("raspiworker0", "/home/192.168.1.135.json"),
   ("raspiworker1", "/home/192.168.1.133.json"), ("raspiworker2", "/home/192.168.1.134.json")]

/-- Go `os.Open(path)` followed by reading and decoding the file: `none` when
`os.Open` returns an error.  The empty path names no file, in every file
system. -/
def osOpen (env : Env) (path : String) : Option Iperf :=
  if path = "" then none else env.iperfFile path

/-- The function `getNetworkBandwith` (lines 503-530).  A key that is not in
`nodeNames` gives the empty path.  When `os.Open` fails the error is printed,
nothing is read from the nil file, `UnmarshalIperf` fails on the empty input and
leaves `iperfValues` at its zero value; `Streams[0]` then has nothing to index. -/
def getNetworkBandwith (env : Env) (node : String) : Go F64 :=
  let path := (nodeNames.lookup node).getD ""
  let iperfValues : Iperf := (osOpen env path).getD ⟨⟨[]⟩⟩
  match iperfValues.End.Streams with
  | [] => .error .indexOutOfRange
  | stream :: _ => .ok stream.Receiver.BitsPerSecond

/-- The function `getDiskIONow` (lines 532-549). -/
def getDiskIONow (body : List Char) (node : String) : Go Int := do
  let substring ←
    if node = "ubuntu" then
      between body "node_disk_io_now\x7bdevice=\"sda\"\x7d" 31
        "node_disk_io_now\x7bdevice=\"sr0\"\x7d"
    else
      between body "node_disk_io_now\x7bdevice=\"mmcblk0\"\x7d" 35
        "node_disk_io_now\x7bdevice=\"mmcblk0p1\"\x7d"
  match atoi substring with
  | none => pure 0
  | some i => pure i

/-- One of the four composite literals of lines 292-331 (a worker node): the
fields are evaluated in the order they are written. -/
def workerMetrics (lib : GoLib) (env : Env) (node : String) (body : List Char) :
    Go PrometheusNodeMetrics := do
  let cpu ← getCurrentCPUUsage lib body
  let mem ← getOccupiedMemoryPercentage lib body
  let received ← getNetworkPacketsReceived body node
  let sent ← getNetworkPacketsSent body node
  let bandwith ← getNetworkBandwith env node
  let disk ← getDiskIONow body node
  pure
    { nodeName := node
      cpuFrequencyHertz := cpu
      occupiedMemoryPercentage := mem
      networkPacketsReceived := received
      networkPacketsSent := sent
      networkBandwith := bandwith
      diskIONow := disk }

/-- The composite literal of lines 281-289 (the master node): its
`networkBandwith` is the constant `0.0`. -/
def ubuntuMetrics (lib : GoLib) (body : List Char) : Go PrometheusNodeMetrics := do
  let cpu ← getCurrentCPUUsage lib body
  let mem ← getOccupiedMemoryPercentage lib body
  let received ← getNetworkPacketsReceived body "ubuntu"
  let sent ← getNetworkPacketsSent body "ubuntu"
  let disk ← getDiskIONow body "ubuntu"
  pure
    { nodeName := "ubuntu"
      cpuFrequencyHertz := cpu
      occupiedMemoryPercentage := mem
      networkPacketsReceived := received
      networkPacketsSent := sent
      networkBandwith := F64.fin 0
      diskIONow := disk }

/-- Lines 275-331 of `prioritize`: the five requests, then the five entries of
`nodeMetricsMap`, in the order of the assignments. -/
def buildNodeMetricsMap (lib : GoLib) (env : Env) :
    Go (List (String × PrometheusNodeMetrics)) := do
  let ubuntuBody ← makeHttpRequest env "http://192.168.1.137:9100/metrics"
  let raspiworker0Body ← makeHttpRequest env "http://192.168.1.132:9100/metrics"
  let raspiworker1Body ← makeHttpRequest env "http://192.168.1.135:9100/metrics"
  let raspiworker2Body ← makeHttpRequest env "http://192.168.1.133:9100/metrics"
  let raspiworker3Body ← makeHttpRequest env "http://192.168.1.134:9100/metrics"
  let ubuntu ← ubuntuMetrics lib ubuntuBody
  let raspiworker0 ← workerMetrics lib env "raspiworker0" raspiworker0Body
  let raspiworker1 ← workerMetrics lib env "raspiworker1" raspiworker1Body
  let raspiworker2 ← workerMetrics lib env "raspiworker2" raspiworker2Body
  let raspiworker3 ← workerMetrics lib env "raspiworker3" raspiworker3Body
  pure
    [("ubuntu", ubuntu), ("raspiworker0", raspiworker0), ("raspiworker1", raspiworker1),
     ("raspiworker2", raspiworker2), ("raspiworker3", raspiworker3)]

/-- The orders in which the two `range` statements visit their maps: each
field rearranges the entries of a map into the order of one run. -/
structure RangeOrder where
  metrics : List (String × PrometheusNodeMetrics) → List (String × PrometheusNodeMetrics)
  priorities : PriorityTable → PriorityTable

/-- The function `prioritize` (lines 248-368).  Neither `nodes` nor `pod` is
read by the body. -/
def prioritize (lib : GoLib) (env : Env) (order : RangeOrder) (_nodes : List String)
    (_pod : String) : Go PriorityTable := do
  let nodeMetricsMap ← buildNodeMetricsMap lib env
  pure (prioritizeScores (order.metrics nodeMetricsMap))

/-! ## The scheduling loop: lines 161-246 -/

/-- The fields of a `v1.Pod` that the code reads. -/
structure Pod where
  Name : String
  Namespace : String
  UID : String
  NodeName : String
  SchedulerName : String
  deriving DecidableEq

/-- The constant `SchedulerName` (line 119). -/
def SchedulerName : String := "netAwareScheduler"

/-- An object delivered to an informer handler: a pod, or anything else. -/
inductive WatchObject where
  | pod (p : Pod) : WatchObject
  | other : WatchObject

/-- The `AddFunc` of the pod informer (lines 165-173), as the content of
`podQueue` once the handler has returned; a send appends to the channel (it
waits while the channel holds its 300 pods). -/
def podAddFunc (podQueue : List Pod) (obj : WatchObject) : List Pod :=
  match obj with
  | .other => podQueue
  | .pod pod =>
      if pod.NodeName = "" ∧ pod.SchedulerName = SchedulerName then podQueue ++ [pod]
      else podQueue

/-- What the cluster API answers: the result of `nodeLister.List` (the node
names, or an error) and whether `Bind` of a pod to a node returns an error. -/
structure Cluster where
  listNodes : Except String (List String)
  bindFails : Pod → String → Bool

/-- A request sent to the cluster API. -/
inductive ApiCall where
  | bind (podNamespace podName node : String) : ApiCall
  | createEvent (podNamespace message reason component : String) : ApiCall
  deriving DecidableEq

/-- The function `findNodesThatFit` (lines 239-246): the Go pair
`(string, error)`, the error being `none` for `nil`. -/
def findNodesThatFit (lib : GoLib) (env : Env) (order : RangeOrder) (cluster : Cluster)
    (pod : Pod) : Go (String × Option String) :=
  match cluster.listNodes with
  | .error err => pure ("", some err)
  | .ok nodes => do
      let priorities ← prioritize lib env order nodes pod.Name
      pure (findBestNode (order.priorities priorities), none)

/-- The function `Schedule` (lines 189-237) for the pod `p` received from
`podQueue`: the requests it sends to the cluster API, in order.  Line 214
(`:=` without a new variable) and line 235 (`return err` in a function without
result) are read as `=` and `return`. -/
def Schedule (lib : GoLib) (env : Env) (order : RangeOrder) (cluster : Cluster) (p : Pod) :
    Go (List ApiCall) := do
  let found ← findNodesThatFit lib env order cluster p
  let node := found.1
  if found.2.isSome then
    pure []
  else if cluster.bindFails p node then
    pure [ApiCall.bind p.Namespace p.Name node]
  else
    pure [ApiCall.bind p.Namespace p.Name node,
      ApiCall.createEvent p.Namespace ("Assigned pod " ++ p.Name ++ " to " ++ node ++ "\n")
        "Scheduled" SchedulerName]

/-! ## Notions used to state the properties -/

/-- One step of a tracker of the best reading seen so far and of the node it
came from: the shape shared by the six `if` statements of the scoring loop. -/
def trackStep {α : Type} (better : α → α → Bool) (st : α × String) (e : String × α) :
    α × String :=
  if better e.2 st.1 then (e.2, e.1) else st

/-- The comparison of the disk `if` statement: lower, and not zero. -/
def diskBetter (a b : Int) : Bool := decide (a < b ∧ a ≠ 0)

/-- The comparison of the two packet-count `if` statements. -/
def intLess (a b : Int) : Bool := decide (a < b)

/-- Two snapshots do not tie: their readings of CPU frequency, occupied memory,
received packets and sent packets differ, and so do their disk readings unless
both are zero. -/
def Untied (x y : String × PrometheusNodeMetrics) : Prop :=
  (F64.lt x.2.cpuFrequencyHertz y.2.cpuFrequencyHertz = true ∨
    F64.lt y.2.cpuFrequencyHertz x.2.cpuFrequencyHertz = true) ∧
  (F64.lt x.2.occupiedMemoryPercentage y.2.occupiedMemoryPercentage = true ∨
    F64.lt y.2.occupiedMemoryPercentage x.2.occupiedMemoryPercentage = true) ∧
  x.2.networkPacketsReceived ≠ y.2.networkPacketsReceived ∧
  x.2.networkPacketsSent ≠ y.2.networkPacketsSent ∧
  (x.2.diskIONow ≠ y.2.diskIONow ∨ (x.2.diskIONow = 0 ∧ y.2.diskIONow = 0))

instance (x y : String × PrometheusNodeMetrics) : Decidable (Untied x y) := by
  unfold Untied
  infer_instance

/-- One key alone holds the highest score of the table. -/
def UniqueTop (t : PriorityTable) : Prop :=
  ∀ e ∈ t, ∀ e' ∈ t, (∀ x ∈ t, x.2 ≤ e.2) → (∀ x ∈ t, x.2 ≤ e'.2) → e.1 = e'.1

instance (t : PriorityTable) : Decidable (UniqueTop t) := by
  unfold UniqueTop
  infer_instance

/-- The slice `body[Index(body, start)+skip : Index(body, stop)-1]` is in range. -/
def InRange (body : List Char) (start : String) (skip : Int) (stop : String) : Prop :=
  stringsIndex body start.toList + skip ≤ stringsIndex body stop.toList - 1

instance (body : List Char) (start : String) (skip : Int) (stop : String) :
    Decidable (InRange body start skip stop) := by
  unfold InRange
  infer_instance

/-! ## Concrete inputs for the examples -/

/-- The function `strconv.ParseFloat(s, 32)` on the strings the examples use: a
numeral of one to seven decimal digits is read exactly (float32 holds every integer below
`2^24`); a string with another character is a syntax error, for which
`ParseFloat` returns `0`. -/
def parseSmallDecimal (s : List Char) : F64 × Bool :=
  if s ≠ [] ∧ s.all Char.isDigit = true ∧ s.length ≤ 7 then (F64.fin (digitsValue s), false)
  else (F64.fin 0, true)

/-- A binary operation of rationals, lifted to finite `float64` values. -/
def exactOp (f : ℚ → ℚ → ℚ) : F64 → F64 → F64
  | .fin a, .fin b => .fin (f a b)
  | _, _ => .nan

/-- The library functions on the values the examples use: small integers, on
which float64 arithmetic is exact.  The examples never divide by zero and never
leave the finite values. -/
def exactLib : GoLib where
  parseFloat := parseSmallDecimal
  add := exactOp (fun a b => a + b)
  sub := exactOp (fun a b => a - b)
  mul := exactOp (fun a b => a * b)
  div := exactOp (fun a b => a / b)

/-- The lines of a worker node's exposition text that the parsers read, with
the given four CPU samples, total and available memory, received and sent
packets and in-flight I/O. -/
def workerBody (cpu0 cpu1 cpu2 cpu3 memTotal memAvailable received sent disk : String) :
    List Char :=
  ("# TYPE node_cpu_scaling_frequency_hertz gauge\n" ++
   "node_cpu_scaling_frequency_hertz\x7bcpu=\"0\"\x7d " ++ cpu0 ++ "\n" ++
   "node_cpu_scaling_frequency_hertz\x7bcpu=\"1\"\x7d " ++ cpu1 ++ "\n" ++
   "node_cpu_scaling_frequency_hertz\x7bcpu=\"2\"\x7d " ++ cpu2 ++ "\n" ++
   "node_cpu_scaling_frequency_hertz\x7bcpu=\"3\"\x7d " ++ cpu3 ++ "\n" ++
   "# HELP node_cpu_scaling_frequency_max_hrts Maximum scaled cpu thread frequency in hertz.\n" ++
   "node_disk_io_now\x7bdevice=\"mmcblk0\"\x7d " ++ disk ++ "\n" ++
   "node_disk_io_now\x7bdevice=\"mmcblk0p1\"\x7d 0\n" ++
   "# TYPE node_memory_MemAvailable_bytes gauge\n" ++
   "node_memory_MemAvailable_bytes " ++ memAvailable ++ "\n" ++
   "# HELP node_memory_MemFree_bytes Memory information field MemFree_bytes.\n" ++
   "# TYPE node_memory_MemTotal_bytes gauge\n" ++
   "node_memory_MemTotal_bytes " ++ memTotal ++ "\n" ++
   "# HELP node_memory_Mlocked_bytes Memory information field Mlocked_bytes.\n" ++
   "node_network_receive_packets_total\x7bdevice=\"eth0\"\x7d " ++ received ++ "\n" ++
   "node_network_receive_packets_total\x7bdevice=\"flannel.1\"\x7d 7\n" ++
   "node_network_transmit_packets_total\x7bdevice=\"eth0\"\x7d " ++ sent ++ "\n" ++
   "node_network_transmit_packets_total\x7bdevice=\"flannel.1\"\x7d 7\n").toList

/-- The same lines for the master node, whose interface is `enp3s0f1` and whose
disk is `sda`. -/
def ubuntuBody (cpu0 cpu1 cpu2 cpu3 memTotal memAvailable received sent disk : String) :
    List Char :=
  ("# TYPE node_cpu_scaling_frequency_hertz gauge\n" ++
   "node_cpu_scaling_frequency_hertz\x7bcpu=\"0\"\x7d " ++ cpu0 ++ "\n" ++
   "node_cpu_scaling_frequency_hertz\x7bcpu=\"1\"\x7d " ++ cpu1 ++ "\n" ++
   "node_cpu_scaling_frequency_hertz\x7bcpu=\"2\"\x7d " ++ cpu2 ++ "\n" ++
   "node_cpu_scaling_frequency_hertz\x7bcpu=\"3\"\x7d " ++ cpu3 ++ "\n" ++
   "# HELP node_cpu_scaling_frequency_max_hrts Maximum scaled cpu thread frequency in hertz.\n" ++
   "node_disk_io_now\x7bdevice=\"sda\"\x7d " ++ disk ++ "\n" ++
   "node_disk_io_now\x7bdevice=\"sr0\"\x7d 0\n" ++
   "# TYPE node_memory_MemAvailable_bytes gauge\n" ++
   "node_memory_MemAvailable_bytes " ++ memAvailable ++ "\n" ++
   "# HELP node_memory_MemFree_bytes Memory information field MemFree_bytes.\n" ++
   "# TYPE node_memory_MemTotal_bytes gauge\n" ++
   "node_memory_MemTotal_bytes " ++ memTotal ++ "\n" ++
   "# HELP node_memory_Mlocked_bytes Memory information field Mlocked_bytes.\n" ++
   "node_network_receive_packets_total\x7bdevice=\"enp3s0f1\"\x7d " ++ received ++ "\n" ++
   "node_network_receive_packets_total\x7bdevice=\"flannel.1\"\x7d 7\n" ++
   "node_network_transmit_packets_total\x7bdevice=\"enp3s0f1\"\x7d " ++ sent ++ "\n" ++
   "node_network_transmit_packets_total\x7bdevice=\"flannel.1\"\x7d 7\n").toList

/-- An `Iperf` value with one stream of the given receiver rate. -/
def iperfOf (bitsPerSecond : ℚ) : Iperf :=
  ⟨⟨[⟨⟨F64.fin bitsPerSecond⟩, ⟨F64.fin bitsPerSecond⟩⟩]⟩⟩

/-- An environment in which every agent answers and every benchmark file that
`nodeNames` lists can be read. -/
def answeringEnv : Env where
  httpGet := fun address =>
    if address = "http://192.168.1.137:9100/metrics" then
      some (ubuntuBody "900" "900" "900" "900" "1000" "500" "50" "60" "0")
    else if address = "http://192.168.1.132:9100/metrics" then
      some (workerBody "600" "600" "600" "600" "1000" "400" "30" "80" "0")
    else if address = "http://192.168.1.135:9100/metrics" then
      some (workerBody "700" "700" "700" "700" "1000" "700" "40" "70" "0")
    else if address = "http://192.168.1.133:9100/metrics" then
      some (workerBody "800" "800" "800" "800" "1000" "300" "20" "90" "0")
    else if address = "http://192.168.1.134:9100/metrics" then
      some (workerBody "1000" "1000" "1000" "1000" "1000" "200" "60" "40" "0")
    else none
  iperfFile := fun path => if path = "" then none else some (iperfOf 9000)

/-- The `range` statements visit the maps in the order of insertion. -/
def insertionOrder : RangeOrder where
  metrics := fun m => m
  priorities := fun t => t

/-- A pending pod tagged for this scheduler. -/
def examplePod : Pod :=
  { Name := "web", Namespace := "default", UID := "u1", NodeName := "",
    SchedulerName := "netAwareScheduler" }


/-- A snapshot with finite readings, as an entry of `nodeMetricsMap`. -/
def snapshot (node : String) (cpu mem : ℚ) (received sent : Int) (bandwith : ℚ) (disk : Int) :
    String × PrometheusNodeMetrics :=
  (node,
    { nodeName := node
      cpuFrequencyHertz := F64.fin cpu
      occupiedMemoryPercentage := F64.fin mem
      networkPacketsReceived := received
      networkPacketsSent := sent
      networkBandwith := F64.fin bandwith
      diskIONow := disk })

/-- Five snapshots, visited in the order of insertion: `raspiworker1` has the
highest bandwidth, `raspiworker0` the fewest sent packets. -/
def bandwidthInput : List (String × PrometheusNodeMetrics) :=
  [snapshot "ubuntu" 2400000000 35 5000 4000 0 0,
   snapshot "raspiworker0" 600000000 60 900 100 90000000 0,
   snapshot "raspiworker1" 1400000000 20 800 700 94000000 0,
   snapshot "raspiworker2" 700000000 50 300 600 80000000 2,
   snapshot "raspiworker3" 900000000 45 1000 500 85000000 0]

/-- Five snapshots in which `raspiworker0` and `raspiworker1` have the same
readings, the lowest CPU frequency and the lowest occupied memory. -/
def tiedInput : List (String × PrometheusNodeMetrics) :=
  [snapshot "ubuntu" 2400000000 35 200 4000 0 0,
   snapshot "raspiworker0" 600000000 20 900 700 90000000 0,
   snapshot "raspiworker1" 600000000 20 900 700 90000000 0,
   snapshot "raspiworker2" 700000000 50 300 600 80000000 2,
   snapshot "raspiworker3" 900000000 45 1000 100 95000000 0]

/-- The snapshots of `tiedInput`, the two tied workers visited in the other order. -/
def tiedInputSwapped : List (String × PrometheusNodeMetrics) :=
  [snapshot "ubuntu" 2400000000 35 200 4000 0 0,
   snapshot "raspiworker1" 600000000 20 900 700 90000000 0,
   snapshot "raspiworker0" 600000000 20 900 700 90000000 0,
   snapshot "raspiworker2" 700000000 50 300 600 80000000 2,
   snapshot "raspiworker3" 900000000 45 1000 100 95000000 0]

/-- Five snapshots without ties, no disk I/O in flight and no measured
bandwidth: the disk and the bandwidth comparisons fire for no node. -/
def idleInput : List (String × PrometheusNodeMetrics) :=
  [snapshot "ubuntu" 800000000 35 5000 4000 0 0,
   snapshot "raspiworker0" 1400000000 20 900 700 0 0,
   snapshot "raspiworker1" 1200000000 50 300 600 0 0,
   snapshot "raspiworker2" 1000000000 45 1000 100 0 0,
   snapshot "raspiworker3" 900000000 60 2000 900 0 0]

/-- The snapshot of node A in the A/B/C scenario; `r`, `s`, `bw`, `d` are the
four other metrics, equal across the three nodes. -/
def scenarioA (r s : Int) (bw : F64) (d : Int) : String × PrometheusNodeMetrics :=
  ("A", ⟨"A", F64.fin 1200000000, F64.fin 40, r, s, bw, d⟩)

/-- The snapshot of node B in the A/B/C scenario. -/
def scenarioB (r s : Int) (bw : F64) (d : Int) : String × PrometheusNodeMetrics :=
  ("B", ⟨"B", F64.fin 800000000, F64.fin 70, r, s, bw, d⟩)

/-- The snapshot of node C in the A/B/C scenario. -/
def scenarioC (r s : Int) (bw : F64) (d : Int) : String × PrometheusNodeMetrics :=
  ("C", ⟨"C", F64.fin 2000000000, F64.fin 55, r, s, bw, d⟩)

/-- A priority table with a positive entry. -/
def sampleTable : PriorityTable := [("ubuntu", 1), ("raspiworker0", 5), ("none", 3)]

/-- A priority table without a positive entry. -/
def zeroTable : PriorityTable := [("ubuntu", 0), ("raspiworker0", 0)]

/-- The environment `answeringEnv`, except that the request to the agent of
`raspiworker1` fails. -/
def unreachableEnv : Env where
  httpGet := fun address =>
    if address = "http://192.168.1.135:9100/metrics" then none
    else answeringEnv.httpGet address
  iperfFile := answeringEnv.iperfFile

/-- The environment `answeringEnv`, except that the benchmark file of
`raspiworker1` cannot be opened. -/
def missingFileEnv : Env where
  httpGet := answeringEnv.httpGet
  iperfFile := fun path =>
    if path = "/home/192.168.1.133.json" then none else answeringEnv.iperfFile path

/-- A cluster whose node lister returns the empty node set and whose binds succeed. -/
def emptyCluster : Cluster where
  listNodes := .ok []
  bindFails := fun _ _ => false

/-- A cluster whose node lister returns the five nodes and whose binds succeed. -/
def fiveNodeCluster : Cluster where
  listNodes := .ok ["ubuntu", "raspiworker0", "raspiworker1", "raspiworker2", "raspiworker3"]
  bindFails := fun _ _ => false

/-- A cluster whose node lister fails. -/
def brokenCluster : Cluster where
  listNodes := .error "lister unavailable"
  bindFails := fun _ _ => false

/-- The exposition text of a master node with eight cores: the samples of
`cpu="4"` to `cpu="7"` stand between the sample of `cpu="3"` and the line that
ends the fourth slice. -/
def eightCoreBody : List Char :=
  ubuntuBody "900" "900" "800" ("1000\n" ++ cpuLabel "4" ++ " 1000\n" ++ cpuLabel "5" ++
    " 1000\n" ++ cpuLabel "6" ++ " 1000\n" ++ cpuLabel "7" ++ " 1000")
    "1000" "500" "50" "60" "0"

/-- A worker's exposition text from which the sample of `cpu="1"` is missing. -/
def missingSampleBody : List Char :=
  ("# TYPE node_cpu_scaling_frequency_hertz gauge\n" ++
   "node_cpu_scaling_frequency_hertz\x7bcpu=\"0\"\x7d 600\n" ++
   "node_cpu_scaling_frequency_hertz\x7bcpu=\"2\"\x7d 600\n" ++
   "node_cpu_scaling_frequency_hertz\x7bcpu=\"3\"\x7d 600\n" ++
   "# HELP node_cpu_scaling_frequency_max_hrts Maximum scaled cpu thread frequency in hertz.\n"
  ).toList

/-! # Theorems -/

/-! ## Facts about priority tables -/

theorem PriorityTable.total_addTo (t : PriorityTable) (k : String) (w : Int) :
    (t.addTo k w).total = t.total + w := by
  induction t with
  | nil => simp [PriorityTable.addTo, PriorityTable.total]
  | cons e rest ih =>
    obtain ⟨k', v⟩ := e
    unfold PriorityTable.addTo
    split
    · simp [PriorityTable.total]; ring
    · simp only [PriorityTable.total, List.map_cons, List.sum_cons] at ih ⊢
      rw [ih]; ring

theorem PriorityTable.get_addTo (t : PriorityTable) (k k' : String) (w : Int) :
    (t.addTo k w).get k' = t.get k' + (if k = k' then w else 0) := by
  induction t with
  | nil =>
    by_cases h : k = k' <;> simp [PriorityTable.addTo, PriorityTable.get, h]
  | cons e rest ih =>
    obtain ⟨k₀, v⟩ := e
    unfold PriorityTable.addTo
    by_cases h₀ : k₀ = k
    · subst h₀
      by_cases h : k₀ = k' <;> simp [PriorityTable.get, h]
    · by_cases h : k₀ = k'
      · subst h
        simp [PriorityTable.get, h₀, Ne.symm h₀]
      · simp [PriorityTable.get, h₀, h, ih]

theorem PriorityTable.keys_addTo (t : PriorityTable) (k : String) (w : Int) :
    (t.addTo k w).keys = if k ∈ t.keys then t.keys else t.keys ++ [k] := by
  induction t with
  | nil => simp [PriorityTable.addTo, PriorityTable.keys]
  | cons e rest ih =>
    obtain ⟨k₀, v⟩ := e
    unfold PriorityTable.addTo
    by_cases h₀ : k₀ = k
    · subst h₀; simp [PriorityTable.keys]
    · simp only [PriorityTable.keys, List.map_cons, h₀, if_false, List.mem_cons,
        Ne.symm h₀, false_or] at ih ⊢
      rw [ih]
      split <;> simp

theorem PriorityTable.nodup_addTo {t : PriorityTable} (k : String) (w : Int)
    (h : t.keys.Nodup) : (t.addTo k w).keys.Nodup := by
  rw [PriorityTable.keys_addTo]
  split
  · exact h
  · rename_i hk
    rw [List.nodup_append]
    refine ⟨h, List.nodup_singleton k, ?_⟩
    intro a ha hb
    simp at hb
    subst hb
    exact hk ha

theorem PriorityTable.mem_addTo {t : PriorityTable} {k : String} {w : Int} {e : String × Int}
    (h : e ∈ t.addTo k w) : e ∈ t ∨ e.1 = k := by
  induction t with
  | nil =>
    simp [PriorityTable.addTo] at h
    right; rw [h]
  | cons e₀ rest ih =>
    obtain ⟨k₀, v⟩ := e₀
    unfold PriorityTable.addTo at h
    by_cases h₀ : k₀ = k
    · simp only [h₀, if_true, List.mem_cons] at h
      rcases h with h | h
      · right; rw [h]
      · left; exact List.mem_cons_of_mem _ h
    · simp only [h₀, if_false, List.mem_cons] at h
      rcases h with h | h
      · left; rw [h]; exact List.mem_cons_self _ _
      · rcases ih h with h' | h'
        · left; exact List.mem_cons_of_mem _ h'
        · right; exact h'

theorem PriorityTable.nonneg_addTo {t : PriorityTable} {k : String} {w : Int}
    (hw : 0 ≤ w) (h : ∀ e ∈ t, 0 ≤ e.2) : ∀ e ∈ t.addTo k w, 0 ≤ e.2 := by
  induction t with
  | nil =>
    intro e he
    simp [PriorityTable.addTo] at he
    rw [he]; exact hw
  | cons e₀ rest ih =>
    obtain ⟨k₀, v⟩ := e₀
    have hv : 0 ≤ v := h (k₀, v) (List.mem_cons_self _ _)
    have hrest : ∀ e ∈ rest, 0 ≤ e.2 := fun e he => h e (List.mem_cons_of_mem _ he)
    intro e he
    unfold PriorityTable.addTo at he
    by_cases h₀ : k₀ = k
    · simp only [h₀, if_true, List.mem_cons] at he
      rcases he with he | he
      · rw [he]; exact add_nonneg hv hw
      · exact hrest e he
    · simp only [h₀, if_false, List.mem_cons] at he
      rcases he with he | he
      · rw [he]; exact hv
      · exact ih hrest e he

theorem PriorityTable.get_eq_of_mem {t : PriorityTable} (hn : t.keys.Nodup) {k : String}
    {v : Int} (h : (k, v) ∈ t) : t.get k = v := by
  induction t with
  | nil => simp at h
  | cons e₀ rest ih =>
    obtain ⟨k₀, v₀⟩ := e₀
    simp only [PriorityTable.keys, List.map_cons, List.nodup_cons] at hn
    simp only [List.mem_cons, Prod.mk.injEq] at h
    unfold PriorityTable.get
    rcases h with ⟨hk, hv⟩ | h
    · simp [hk, hv]
    · have : k₀ ≠ k := by
        rintro rfl
        exact hn.1 (List.mem_map_of_mem Prod.fst h)
      simp only [this, if_false]
      exact ih hn.2 h

theorem PriorityTable.get_zero_or_mem (t : PriorityTable) (k : String) :
    t.get k = 0 ∨ (k, t.get k) ∈ t := by
  induction t with
  | nil => left; rfl
  | cons e₀ rest ih =>
    obtain ⟨k₀, v₀⟩ := e₀
    unfold PriorityTable.get
    by_cases h₀ : k₀ = k
    · right; simp [h₀]
    · simp only [h₀, if_false]
      rcases ih with h | h
      · left; exact h
      · right; exact List.mem_cons_of_mem _ h

theorem PriorityTable.le_total {t : PriorityTable} (h : ∀ e ∈ t, 0 ≤ e.2) :
    ∀ e ∈ t, e.2 ≤ t.total := by
  induction t with
  | nil => intro e he; simp at he
  | cons e₀ rest ih =>
    have hrest : ∀ e ∈ rest, 0 ≤ e.2 := fun e he => h e (List.mem_cons_of_mem _ he)
    have h0 : 0 ≤ e₀.2 := h e₀ (List.mem_cons_self _ _)
    have htot : 0 ≤ PriorityTable.total rest := by
      unfold PriorityTable.total
      apply List.sum_nonneg
      intro x hx
      obtain ⟨e, he, rfl⟩ := List.mem_map.1 hx
      exact hrest e he
    intro e he
    simp only [PriorityTable.total, List.map_cons, List.sum_cons] at htot ⊢
    rcases List.mem_cons.1 he with rfl | he
    · linarith
    · have := ih hrest e he
      simp only [PriorityTable.total] at this
      linarith

/-! ## Facts about `findBestNode` -/

theorem findBestNodeLoop_spec (t : PriorityTable) (acc : Int × String) :
    acc.1 ≤ (findBestNodeLoop acc t).1 ∧
    (∀ e ∈ t, e.2 ≤ (findBestNodeLoop acc t).1) ∧
    (findBestNodeLoop acc t = acc ∨
      (((findBestNodeLoop acc t).2, (findBestNodeLoop acc t).1) ∈ t ∧
        acc.1 < (findBestNodeLoop acc t).1)) := by
  induction t generalizing acc with
  | nil => simp [findBestNodeLoop]
  | cons e rest ih =>
    have hstep : findBestNodeLoop acc (e :: rest) =
        findBestNodeLoop (if e.2 > acc.1 then (e.2, e.1) else acc) rest := by
      simp [findBestNodeLoop]
    rw [hstep]
    by_cases hgt : e.2 > acc.1
    · simp only [hgt, if_true]
      obtain ⟨h1, h2, h3⟩ := ih (e.2, e.1)
      simp only at h1 h3
      refine ⟨by omega, ?_, ?_⟩
      · intro x hx
        rcases List.mem_cons.1 hx with rfl | hx
        · exact h1
        · exact h2 x hx
      · right
        rcases h3 with h3 | h3
        · rw [h3]
          exact ⟨List.mem_cons_self _ _, hgt⟩
        · exact ⟨List.mem_cons_of_mem _ h3.1, by omega⟩
    · simp only [hgt, if_false]
      obtain ⟨h1, h2, h3⟩ := ih acc
      refine ⟨h1, ?_, ?_⟩
      · intro x hx
        rcases List.mem_cons.1 hx with rfl | hx
        · omega
        · exact h2 x hx
      · rcases h3 with h3 | h3
        · left; exact h3
        · right; exact ⟨List.mem_cons_of_mem _ h3.1, h3.2⟩

/-- When some entry is positive, `findBestNode` returns the key of an entry
whose score is positive and at least every score of the table. -/
theorem findBestNode_of_pos {t : PriorityTable} (h : ∃ e ∈ t, 0 < e.2) :
    ∃ v, (findBestNode t, v) ∈ t ∧ 0 < v ∧ ∀ e ∈ t, e.2 ≤ v := by
  obtain ⟨e, he, hpos⟩ := h
  obtain ⟨_, h2, h3⟩ := findBestNodeLoop_spec t (0, "")
  have hmax : 0 < (findBestNodeLoop (0, "") t).1 := lt_of_lt_of_le hpos (h2 e he)
  refine ⟨(findBestNodeLoop (0, "") t).1, ?_, hmax, h2⟩
  rcases h3 with h3 | h3
  · rw [h3] at hmax; simp at hmax
  · exact h3.1

/-- When no entry is positive, `findBestNode` returns the empty string. -/
theorem findBestNode_of_not_pos {t : PriorityTable} (h : ∀ e ∈ t, e.2 ≤ 0) :
    findBestNode t = "" := by
  obtain ⟨_, _, h3⟩ := findBestNodeLoop_spec t (0, "")
  rcases h3 with h3 | h3
  · unfold findBestNode; rw [h3]
  · have := h _ h3.1
    simp only at this h3
    omega

/-! ## Facts about the scoring loop -/

theorem cpuStep_eq (n : String) (m : PrometheusNodeMetrics) (s : ScoreState) :
    cpuStep n m s =
      { s with
        sampleMetrics :=
          { s.sampleMetrics with
            cpuFrequencyHertz :=
              (if F64.lt m.cpuFrequencyHertz s.sampleMetrics.cpuFrequencyHertz then
                m.cpuFrequencyHertz
              else s.sampleMetrics.cpuFrequencyHertz) }
        bestCpuNode :=
          (if F64.lt m.cpuFrequencyHertz s.sampleMetrics.cpuFrequencyHertz then
            n
          else s.bestCpuNode) } := by
  unfold cpuStep
  split <;> rfl

theorem memStep_eq (n : String) (m : PrometheusNodeMetrics) (s : ScoreState) :
    memStep n m s =
      { s with
        sampleMetrics :=
          { s.sampleMetrics with
            occupiedMemoryPercentage :=
              (if F64.lt m.occupiedMemoryPercentage
                  s.sampleMetrics.occupiedMemoryPercentage then
                m.occupiedMemoryPercentage
              else s.sampleMetrics.occupiedMemoryPercentage) }
        bestMemNode :=
          (if F64.lt m.occupiedMemoryPercentage s.sampleMetrics.occupiedMemoryPercentage then
            n
          else s.bestMemNode) } := by
  unfold memStep
  split <;> rfl

theorem recStep_eq (n : String) (m : PrometheusNodeMetrics) (s : ScoreState) :
    recStep n m s =
      { s with
        sampleMetrics :=
          { s.sampleMetrics with
            networkPacketsReceived :=
              (if m.networkPacketsReceived < s.sampleMetrics.networkPacketsReceived then
                m.networkPacketsReceived
              else s.sampleMetrics.networkPacketsReceived) }
        bestNetRecNode :=
          (if m.networkPacketsReceived < s.sampleMetrics.networkPacketsReceived then
            n
          else s.bestNetRecNode) } := by
  unfold recStep
  split <;> rfl

theorem sentStep_eq (n : String) (m : PrometheusNodeMetrics) (s : ScoreState) :
    sentStep n m s =
      { s with
        sampleMetrics :=
          { s.sampleMetrics with
            networkPacketsSent :=
              (if m.networkPacketsSent < s.sampleMetrics.networkPacketsSent then
                m.networkPacketsSent
              else s.sampleMetrics.networkPacketsSent) }
        bestNetSentNode :=
          (if m.networkPacketsSent < s.sampleMetrics.networkPacketsSent then
            n
          else s.bestNetSentNode) } := by
  unfold sentStep
  split <;> rfl

theorem bandwithStep_eq (n : String) (m : PrometheusNodeMetrics) (s : ScoreState) :
    bandwithStep n m s =
      { s with
        sampleMetrics :=
          { s.sampleMetrics with
            networkBandwith :=
              (if F64.gt m.networkBandwith s.sampleMetrics.networkBandwith then
                m.networkBandwith
              else s.sampleMetrics.networkBandwith) }
        bestNetSentNode :=
          (if F64.gt m.networkBandwith s.sampleMetrics.networkBandwith then
            n
          else s.bestNetSentNode) } := by
  unfold bandwithStep
  split <;> rfl

theorem diskStep_eq (n : String) (m : PrometheusNodeMetrics) (s : ScoreState) :
    diskStep n m s =
      { s with
        sampleMetrics :=
          { s.sampleMetrics with
            diskIONow :=
              (if m.diskIONow < s.sampleMetrics.diskIONow ∧ m.diskIONow ≠ 0 then
                m.diskIONow
              else s.sampleMetrics.diskIONow) }
        bestDiskNode :=
          (if m.diskIONow < s.sampleMetrics.diskIONow ∧ m.diskIONow ≠ 0 then
            n
          else s.bestDiskNode) } := by
  unfold diskStep
  split <;> rfl

/-- One iteration of the scoring loop, field by field. -/
theorem scoreStep_eq (s : ScoreState) (e : String × PrometheusNodeMetrics) :
    scoreStep s e =
      { sampleMetrics :=
          { nodeName := s.sampleMetrics.nodeName
            cpuFrequencyHertz :=
              if F64.lt e.2.cpuFrequencyHertz s.sampleMetrics.cpuFrequencyHertz then
                e.2.cpuFrequencyHertz else s.sampleMetrics.cpuFrequencyHertz
            occupiedMemoryPercentage :=
              if F64.lt e.2.occupiedMemoryPercentage s.sampleMetrics.occupiedMemoryPercentage then
                e.2.occupiedMemoryPercentage else s.sampleMetrics.occupiedMemoryPercentage
            networkPacketsReceived :=
              if e.2.networkPacketsReceived < s.sampleMetrics.networkPacketsReceived then
                e.2.networkPacketsReceived else s.sampleMetrics.networkPacketsReceived
            networkPacketsSent :=
              if e.2.networkPacketsSent < s.sampleMetrics.networkPacketsSent then
                e.2.networkPacketsSent else s.sampleMetrics.networkPacketsSent
            networkBandwith :=
              if F64.gt e.2.networkBandwith s.sampleMetrics.networkBandwith then
                e.2.networkBandwith else s.sampleMetrics.networkBandwith
            diskIONow :=
              if e.2.diskIONow < s.sampleMetrics.diskIONow ∧ e.2.diskIONow ≠ 0 then
                e.2.diskIONow else s.sampleMetrics.diskIONow }
        bestCpuNode :=
          if F64.lt e.2.cpuFrequencyHertz s.sampleMetrics.cpuFrequencyHertz then e.1
          else s.bestCpuNode
        bestMemNode :=
          if F64.lt e.2.occupiedMemoryPercentage s.sampleMetrics.occupiedMemoryPercentage then e.1
          else s.bestMemNode
        bestNetSentNode :=
          if F64.gt e.2.networkBandwith s.sampleMetrics.networkBandwith then e.1
          else if e.2.networkPacketsSent < s.sampleMetrics.networkPacketsSent then e.1
          else s.bestNetSentNode
        bestNetRecNode :=
          if e.2.networkPacketsReceived < s.sampleMetrics.networkPacketsReceived then e.1
          else s.bestNetRecNode
        bestNetBandwith := s.bestNetBandwith
        bestDiskNode :=
          if e.2.diskIONow < s.sampleMetrics.diskIONow ∧ e.2.diskIONow ≠ 0 then e.1
          else s.bestDiskNode } := by
  unfold scoreStep
  rw [diskStep_eq, bandwithStep_eq, sentStep_eq, recStep_eq, memStep_eq, cpuStep_eq]

theorem F64.lt_asymm (a b : F64) (h : F64.lt a b = true) : F64.lt b a = false := by
  cases a <;> cases b <;> simp_all [F64.lt]
  exact h.le

theorem F64.lt_trans (a b c : F64) (h₁ : F64.lt a b = true) (h₂ : F64.lt b c = true) :
    F64.lt a c = true := by
  cases a <;> cases b <;> cases c <;> simp_all [F64.lt]
  exact h₁.trans h₂

theorem F64.lt_irrefl (a : F64) : F64.lt a a = false := by
  cases a <;> simp [F64.lt]

/-- Two tracker steps commute when one reading is strictly better than the other. -/
theorem trackStep_comm_of_better {α : Type} {better : α → α → Bool}
    (hasym : ∀ a b, better a b = true → better b a = false)
    (htrans : ∀ a b c, better a b = true → better b c = true → better a c = true)
    {x y : String × α} (hxy : better x.2 y.2 = true) (z : α × String) :
    trackStep better (trackStep better z x) y = trackStep better (trackStep better z y) x := by
  have hyx := hasym _ _ hxy
  unfold trackStep
  by_cases hx : better x.2 z.1 = true
  · by_cases hy : better y.2 z.1 = true
    · simp [hx, hy, hxy, hyx]
    · simp [hx, hy, hxy, hyx]
  · have hy : ¬ better y.2 z.1 = true := fun hy => hx (htrans _ _ _ hxy hy)
    simp [hx, hy]

theorem trackStep_comm {α : Type} {better : α → α → Bool}
    (hasym : ∀ a b, better a b = true → better b a = false)
    (htrans : ∀ a b c, better a b = true → better b c = true → better a c = true)
    {x y : String × α}
    (h : x = y ∨ better x.2 y.2 = true ∨ better y.2 x.2 = true ∨
      (∀ v, better x.2 v = false) ∨ ∀ v, better y.2 v = false)
    (z : α × String) :
    trackStep better (trackStep better z x) y = trackStep better (trackStep better z y) x := by
  rcases h with h | h | h | h | h
  · rw [h]
  · exact trackStep_comm_of_better hasym htrans h z
  · exact (trackStep_comm_of_better hasym htrans h z).symm
  · simp [trackStep, h]
  · simp [trackStep, h]

/-- A tracker ends in the same state for every order of visiting entries of
which no two tie. -/
theorem track_perm {α : Type} {better : α → α → Bool}
    (hasym : ∀ a b, better a b = true → better b a = false)
    (htrans : ∀ a b c, better a b = true → better b c = true → better a c = true)
    {l₁ l₂ : List (String × α)} (hp : l₁.Perm l₂)
    (hno : ∀ x ∈ l₁, ∀ y ∈ l₁, x = y ∨ better x.2 y.2 = true ∨ better y.2 x.2 = true ∨
      (∀ v, better x.2 v = false) ∨ ∀ v, better y.2 v = false)
    (st : α × String) :
    l₁.foldl (trackStep better) st = l₂.foldl (trackStep better) st :=
  hp.foldl_eq' (fun x hx y hy z => trackStep_comm hasym htrans (hno x hx y hy) z) st

/-- Among entries with one common reading only the first can move a tracker. -/
theorem track_of_all_eq {α : Type} {better : α → α → Bool}
    (hirr : ∀ a, better a a = false) (v : α) (h : String × α) (t : List (String × α))
    (hh : h.2 = v) (ht : ∀ e ∈ t, e.2 = v) (st : α × String) :
    (h :: t).foldl (trackStep better) st = trackStep better st h := by
  rw [List.foldl_cons]
  have key : ∀ (t : List (String × α)) (s : α × String), (∀ e ∈ t, e.2 = v) →
      better v s.1 = false → t.foldl (trackStep better) s = s := by
    intro t
    induction t with
    | nil => intro s _ _; rfl
    | cons e rest ih =>
      intro s hall hs
      rw [List.foldl_cons]
      have he : e.2 = v := hall e (List.mem_cons_self _ _)
      have : trackStep better s e = s := by simp [trackStep, he, hs]
      rw [this]
      exact ih s (fun x hx => hall x (List.mem_cons_of_mem _ hx)) hs
  subst hh
  apply key t _ ht
  unfold trackStep
  by_cases hb : better h.2 st.1 = true
  · simp [hb, hirr]
  · simp [hb]

theorem diskBetter_asymm (a b : Int) (h : diskBetter a b = true) : diskBetter b a = false := by
  simp [diskBetter] at h ⊢
  omega

theorem diskBetter_trans (a b c : Int) (h₁ : diskBetter a b = true)
    (h₂ : diskBetter b c = true) : diskBetter a c = true := by
  simp [diskBetter] at h₁ h₂ ⊢
  omega

theorem intLess_asymm (a b : Int) (h : intLess a b = true) : intLess b a = false := by
  simp [intLess] at h ⊢
  omega

theorem intLess_trans (a b c : Int) (h₁ : intLess a b = true) (h₂ : intLess b c = true) :
    intLess a c = true := by
  simp [intLess] at h₁ h₂ ⊢
  omega

/-! ### The six trackers of the scoring loop, one by one -/

theorem foldl_scoreStep_cpu (l : List (String × PrometheusNodeMetrics)) (s : ScoreState) :
    ((l.foldl scoreStep s).sampleMetrics.cpuFrequencyHertz, (l.foldl scoreStep s).bestCpuNode) =
      (l.map fun e => (e.1, e.2.cpuFrequencyHertz)).foldl (trackStep F64.lt)
        (s.sampleMetrics.cpuFrequencyHertz, s.bestCpuNode) := by
  induction l generalizing s with
  | nil => rfl
  | cons e rest ih =>
    simp only [List.foldl_cons, List.map_cons]
    rw [ih, scoreStep_eq]
    congr 1
    simp only [trackStep]
    split <;> rfl

theorem foldl_scoreStep_mem (l : List (String × PrometheusNodeMetrics)) (s : ScoreState) :
    ((l.foldl scoreStep s).sampleMetrics.occupiedMemoryPercentage,
        (l.foldl scoreStep s).bestMemNode) =
      (l.map fun e => (e.1, e.2.occupiedMemoryPercentage)).foldl (trackStep F64.lt)
        (s.sampleMetrics.occupiedMemoryPercentage, s.bestMemNode) := by
  induction l generalizing s with
  | nil => rfl
  | cons e rest ih =>
    simp only [List.foldl_cons, List.map_cons]
    rw [ih, scoreStep_eq]
    congr 1
    simp only [trackStep]
    split <;> rfl

theorem foldl_scoreStep_rec (l : List (String × PrometheusNodeMetrics)) (s : ScoreState) :
    ((l.foldl scoreStep s).sampleMetrics.networkPacketsReceived,
        (l.foldl scoreStep s).bestNetRecNode) =
      (l.map fun e => (e.1, e.2.networkPacketsReceived)).foldl (trackStep intLess)
        (s.sampleMetrics.networkPacketsReceived, s.bestNetRecNode) := by
  induction l generalizing s with
  | nil => rfl
  | cons e rest ih =>
    simp only [List.foldl_cons, List.map_cons]
    rw [ih, scoreStep_eq]
    congr 1
    simp only [trackStep, intLess, decide_eq_true_eq]
    split <;> rfl

theorem foldl_scoreStep_disk (l : List (String × PrometheusNodeMetrics)) (s : ScoreState) :
    ((l.foldl scoreStep s).sampleMetrics.diskIONow, (l.foldl scoreStep s).bestDiskNode) =
      (l.map fun e => (e.1, e.2.diskIONow)).foldl (trackStep diskBetter)
        (s.sampleMetrics.diskIONow, s.bestDiskNode) := by
  induction l generalizing s with
  | nil => rfl
  | cons e rest ih =>
    simp only [List.foldl_cons, List.map_cons]
    rw [ih, scoreStep_eq]
    congr 1
    simp only [trackStep, diskBetter, decide_eq_true_eq]
    split <;> rfl

/-- No iteration assigns `bestNetBandwith`. -/
theorem foldl_scoreStep_bestNetBandwith (l : List (String × PrometheusNodeMetrics))
    (s : ScoreState) : (l.foldl scoreStep s).bestNetBandwith = s.bestNetBandwith := by
  induction l generalizing s with
  | nil => rfl
  | cons e rest ih =>
    rw [List.foldl_cons, ih, scoreStep_eq]

/-- As long as no bandwidth reading exceeds the running best, the sent-packets
tracker is moved by the sent-packets comparison alone. -/
theorem foldl_scoreStep_sent (l : List (String × PrometheusNodeMetrics)) (s : ScoreState)
    (h : ∀ e ∈ l, F64.gt e.2.networkBandwith s.sampleMetrics.networkBandwith = false) :
    ((l.foldl scoreStep s).sampleMetrics.networkPacketsSent,
        (l.foldl scoreStep s).bestNetSentNode) =
      (l.map fun e => (e.1, e.2.networkPacketsSent)).foldl (trackStep intLess)
        (s.sampleMetrics.networkPacketsSent, s.bestNetSentNode) := by
  induction l generalizing s with
  | nil => rfl
  | cons e rest ih =>
    have he := h e (List.mem_cons_self _ _)
    have hstep : (scoreStep s e).sampleMetrics.networkBandwith =
        s.sampleMetrics.networkBandwith := by
      rw [scoreStep_eq]; simp [he]
    simp only [List.foldl_cons, List.map_cons]
    rw [ih]
    · rw [scoreStep_eq]
      congr 1
      simp only [trackStep, intLess, decide_eq_true_eq, he]
      split <;> simp
    · intro x hx
      rw [hstep]
      exact h x (List.mem_cons_of_mem _ hx)

/-- Every tracker holds its initial name or the key of a visited entry. -/
theorem foldl_scoreStep_names (names : List String) (l : List (String × PrometheusNodeMetrics))
    (s : ScoreState) (hl : ∀ e ∈ l, e.1 ∈ names)
    (hs : s.bestCpuNode ∈ names ∧ s.bestMemNode ∈ names ∧ s.bestNetSentNode ∈ names ∧
      s.bestNetRecNode ∈ names ∧ s.bestDiskNode ∈ names) :
    (l.foldl scoreStep s).bestCpuNode ∈ names ∧ (l.foldl scoreStep s).bestMemNode ∈ names ∧
      (l.foldl scoreStep s).bestNetSentNode ∈ names ∧
      (l.foldl scoreStep s).bestNetRecNode ∈ names ∧
      (l.foldl scoreStep s).bestDiskNode ∈ names := by
  induction l generalizing s with
  | nil => exact hs
  | cons e rest ih =>
    rw [List.foldl_cons]
    apply ih _ (fun x hx => hl x (List.mem_cons_of_mem _ hx))
    have he := hl e (List.mem_cons_self _ _)
    obtain ⟨h1, h2, h3, h4, h5⟩ := hs
    rw [scoreStep_eq]
    refine ⟨?_, ?_, ?_, ?_, ?_⟩ <;> simp only [] <;> split_ifs <;> assumption

/-- Among entries with one common number of sent packets and one common
bandwidth, only the first can move the sent-packets tracker. -/
theorem foldl_scoreStep_sent_of_all_eq (s₀ : Int) (bw₀ : F64)
    (h : String × PrometheusNodeMetrics) (t : List (String × PrometheusNodeMetrics))
    (hh : h.2.networkPacketsSent = s₀ ∧ h.2.networkBandwith = bw₀)
    (ht : ∀ e ∈ t, e.2.networkPacketsSent = s₀ ∧ e.2.networkBandwith = bw₀) (st : ScoreState) :
    ((h :: t).foldl scoreStep st).bestNetSentNode = (scoreStep st h).bestNetSentNode := by
  rw [List.foldl_cons]
  have key : ∀ (t : List (String × PrometheusNodeMetrics)) (s : ScoreState),
      (∀ e ∈ t, e.2.networkPacketsSent = s₀ ∧ e.2.networkBandwith = bw₀) →
      ¬ s₀ < s.sampleMetrics.networkPacketsSent →
      F64.gt bw₀ s.sampleMetrics.networkBandwith = false →
      (t.foldl scoreStep s).bestNetSentNode = s.bestNetSentNode := by
    intro t
    induction t with
    | nil => intro s _ _ _; rfl
    | cons e rest ih =>
      intro s hall hs hb
      obtain ⟨he1, he2⟩ := hall e (List.mem_cons_self _ _)
      rw [List.foldl_cons, ih (scoreStep s e) (fun x hx => hall x (List.mem_cons_of_mem _ hx))]
      · rw [scoreStep_eq]; simp [he1, he2, hs, hb]
      · rw [scoreStep_eq]; simp [he1, he2, hs]
      · rw [scoreStep_eq]; simp [he1, he2, hb]
  obtain ⟨hh1, hh2⟩ := hh
  apply key t _ ht
  · rw [scoreStep_eq]
    simp only [hh1]
    split_ifs <;> omega
  · rw [scoreStep_eq]
    simp only [hh2]
    split_ifs with hgt
    · exact F64.lt_irrefl bw₀
    · simpa using hgt

/-! ### The awards and the table returned by the scoring part of `prioritize` -/

theorem award_total (s : ScoreState) (t : PriorityTable) :
    (award s t).total = t.total + 11 := by
  simp only [award, PriorityTable.total_addTo]
  ring

theorem award_get (s : ScoreState) (t : PriorityTable) (k : String) :
    (award s t).get k = t.get k + (if s.bestCpuNode = k then 3 else 0) +
      (if s.bestMemNode = k then 2 else 0) + (if s.bestNetSentNode = k then 1 else 0) +
      (if s.bestNetRecNode = k then 1 else 0) + (if s.bestNetBandwith = k then 3 else 0) +
      (if s.bestDiskNode = k then 1 else 0) := by
  simp only [award, PriorityTable.get_addTo]

theorem award_mem {s : ScoreState} {t : PriorityTable} {e : String × Int}
    (h : e ∈ award s t) :
    e ∈ t ∨ e.1 ∈ [s.bestCpuNode, s.bestMemNode, s.bestNetSentNode, s.bestNetRecNode,
      s.bestNetBandwith, s.bestDiskNode] := by
  simp only [award] at h
  have step : ∀ {u : PriorityTable} {k : String} {w : Int} {names : List String},
      e ∈ u.addTo k w → (e ∈ u → e ∈ t ∨ e.1 ∈ names) → k ∈ names →
      e ∈ t ∨ e.1 ∈ names := by
    intro u k w names hmem hu hk
    rcases PriorityTable.mem_addTo hmem with h' | h'
    · exact hu h'
    · right; rw [h']; exact hk
  refine step h (fun h => step h (fun h => step h (fun h => step h (fun h => step h
    (fun h => step h Or.inl ?_) ?_) ?_) ?_) ?_) ?_ <;> simp

theorem award_nonneg {s : ScoreState} {t : PriorityTable} (h : ∀ e ∈ t, 0 ≤ e.2) :
    ∀ e ∈ award s t, 0 ≤ e.2 := by
  simp only [award]
  exact PriorityTable.nonneg_addTo (by decide) (PriorityTable.nonneg_addTo (by decide)
    (PriorityTable.nonneg_addTo (by decide) (PriorityTable.nonneg_addTo (by decide)
      (PriorityTable.nonneg_addTo (by decide) (PriorityTable.nonneg_addTo (by decide) h)))))

theorem award_nodup {s : ScoreState} {t : PriorityTable} (h : t.keys.Nodup) :
    (award s t).keys.Nodup := by
  simp only [award]
  exact PriorityTable.nodup_addTo _ _ (PriorityTable.nodup_addTo _ _
    (PriorityTable.nodup_addTo _ _ (PriorityTable.nodup_addTo _ _
      (PriorityTable.nodup_addTo _ _ (PriorityTable.nodup_addTo _ _ h)))))

theorem prioritizeScores_total (m : List (String × PrometheusNodeMetrics)) :
    (prioritizeScores m).total = 11 := by
  unfold prioritizeScores
  rw [award_total]
  rfl

theorem prioritizeScores_nonneg (m : List (String × PrometheusNodeMetrics)) :
    ∀ e ∈ prioritizeScores m, 0 ≤ e.2 := by
  apply award_nonneg
  decide

theorem prioritizeScores_nodup (m : List (String × PrometheusNodeMetrics)) :
    (prioritizeScores m).keys.Nodup := by
  apply award_nodup
  decide

theorem scoringLoop_bestNetBandwith (m : List (String × PrometheusNodeMetrics)) :
    (scoringLoop m).bestNetBandwith = "none" := by
  unfold scoringLoop
  rw [foldl_scoreStep_bestNetBandwith]
  rfl

/-- The placeholder always has an entry of at least 3 in the returned table. -/
theorem prioritizeScores_none (m : List (String × PrometheusNodeMetrics)) :
    3 ≤ (prioritizeScores m).get "none" := by
  unfold prioritizeScores
  rw [award_get, scoringLoop_bestNetBandwith]
  have h0 : initNodePriorities.get "none" = 0 := by decide
  rw [h0]
  simp only [if_true]
  split_ifs <;> omega

/-- Every score of the returned table lies between 0 and 11. -/
theorem prioritizeScores_get_bounds (m : List (String × PrometheusNodeMetrics)) (k : String) :
    0 ≤ (prioritizeScores m).get k ∧ (prioritizeScores m).get k ≤ 11 := by
  rcases PriorityTable.get_zero_or_mem (prioritizeScores m) k with h | h
  · rw [h]; decide
  · constructor
    · exact prioritizeScores_nonneg m _ h
    · have := PriorityTable.le_total (prioritizeScores_nonneg m) _ h
      rw [prioritizeScores_total] at this
      exact this

/-- A key with a nonzero score is the final value of one of the trackers. -/
theorem prioritizeScores_pos_key {m : List (String × PrometheusNodeMetrics)} {e : String × Int}
    (h : e ∈ prioritizeScores m) (hpos : 0 < e.2) :
    e.1 = "none" ∨ e.1 ∈ m.map Prod.fst := by
  have hn := foldl_scoreStep_names ("none" :: m.map Prod.fst) m initScoreState
    (fun x hx => List.mem_cons_of_mem _ (List.mem_map_of_mem Prod.fst hx))
    ⟨List.mem_cons_self _ _, List.mem_cons_self _ _, List.mem_cons_self _ _,
      List.mem_cons_self _ _, List.mem_cons_self _ _⟩
  have hb := scoringLoop_bestNetBandwith m
  unfold scoringLoop at hb
  unfold prioritizeScores scoringLoop at h
  rcases award_mem h with h | h
  · exfalso
    have : e.2 = 0 := by
      simp only [initNodePriorities, List.mem_cons, List.mem_singleton, List.not_mem_nil,
        or_false] at h
      rcases h with h | h | h | h | h <;> rw [h]
    omega
  · simp only [List.mem_cons, List.mem_singleton, List.not_mem_nil, or_false] at h
    obtain ⟨h1, h2, h3, h4, h5⟩ := hn
    rcases h with h | h | h | h | h | h
    · rw [h]; exact List.mem_cons.1 h1
    · rw [h]; exact List.mem_cons.1 h2
    · rw [h]; exact List.mem_cons.1 h3
    · rw [h]; exact List.mem_cons.1 h4
    · left; rw [h, hb]
    · rw [h]; exact List.mem_cons.1 h5

/-- In every order of visiting the table, `findBestNode` returns a key whose
score is positive and is the highest of the table. -/
theorem findBestNode_prioritizeScores {m : List (String × PrometheusNodeMetrics)}
    {t : PriorityTable} (ht : t.Perm (prioritizeScores m)) :
    ∃ v, (findBestNode t, v) ∈ prioritizeScores m ∧ 0 < v ∧
      (prioritizeScores m).get (findBestNode t) = v ∧ ∀ k, (prioritizeScores m).get k ≤ v := by
  have hnone := prioritizeScores_none m
  have hmem : ("none", (prioritizeScores m).get "none") ∈ prioritizeScores m := by
    rcases PriorityTable.get_zero_or_mem (prioritizeScores m) "none" with h | h
    · omega
    · exact h
  obtain ⟨v, hv, hpos, hmax⟩ := findBestNode_of_pos (t := t)
    ⟨_, ht.mem_iff.2 hmem, by simp only; omega⟩
  have hv' := ht.mem_iff.1 hv
  refine ⟨v, hv', hpos, PriorityTable.get_eq_of_mem (prioritizeScores_nodup m) hv', ?_⟩
  intro k
  rcases PriorityTable.get_zero_or_mem (prioritizeScores m) k with h | h
  · omega
  · exact hmax _ (ht.mem_iff.2 h)

/-! ### Order of visiting the snapshot map -/

/-- The trackers of CPU frequency, occupied memory, received packets and disk
I/O end on the same nodes for every order of visiting snapshots of which no two
tie; so does the sent-packets tracker when the bandwidth comparison never fires. -/
theorem scoringLoop_perm {m l : List (String × PrometheusNodeMetrics)}
    (huntied : ∀ x ∈ m, ∀ y ∈ m, x = y ∨ Untied x y)
    (hbw : ∀ x ∈ m, F64.gt x.2.networkBandwith (F64.fin 0) = false) (hl : l.Perm m) :
    (scoringLoop l).bestCpuNode = (scoringLoop m).bestCpuNode ∧
      (scoringLoop l).bestMemNode = (scoringLoop m).bestMemNode ∧
      (scoringLoop l).bestNetSentNode = (scoringLoop m).bestNetSentNode ∧
      (scoringLoop l).bestNetRecNode = (scoringLoop m).bestNetRecNode ∧
      (scoringLoop l).bestNetBandwith = (scoringLoop m).bestNetBandwith ∧
      (scoringLoop l).bestDiskNode = (scoringLoop m).bestDiskNode := by
  have hun : ∀ x ∈ l, ∀ y ∈ l, x = y ∨ Untied x y :=
    fun x hx y hy => huntied x (hl.mem_iff.1 hx) y (hl.mem_iff.1 hy)
  have hcpu := track_perm F64.lt_asymm F64.lt_trans
    (hl.map fun e => (e.1, e.2.cpuFrequencyHertz))
    (by
      intro x hx y hy
      obtain ⟨a, ha, rfl⟩ := List.mem_map.1 hx
      obtain ⟨b, hb, rfl⟩ := List.mem_map.1 hy
      rcases hun a ha b hb with h | h
      · left; rw [h]
      · rcases h.1 with h | h
        · exact Or.inr (Or.inl h)
        · exact Or.inr (Or.inr (Or.inl h)))
    (initScoreState.sampleMetrics.cpuFrequencyHertz, initScoreState.bestCpuNode)
  have hmem := track_perm F64.lt_asymm F64.lt_trans
    (hl.map fun e => (e.1, e.2.occupiedMemoryPercentage))
    (by
      intro x hx y hy
      obtain ⟨a, ha, rfl⟩ := List.mem_map.1 hx
      obtain ⟨b, hb, rfl⟩ := List.mem_map.1 hy
      rcases hun a ha b hb with h | h
      · left; rw [h]
      · rcases h.2.1 with h | h
        · exact Or.inr (Or.inl h)
        · exact Or.inr (Or.inr (Or.inl h)))
    (initScoreState.sampleMetrics.occupiedMemoryPercentage, initScoreState.bestMemNode)
  have hrec := track_perm intLess_asymm intLess_trans
    (hl.map fun e => (e.1, e.2.networkPacketsReceived))
    (by
      intro x hx y hy
      obtain ⟨a, ha, rfl⟩ := List.mem_map.1 hx
      obtain ⟨b, hb, rfl⟩ := List.mem_map.1 hy
      rcases hun a ha b hb with h | h
      · left; rw [h]
      · have hne := h.2.2.1
        rcases lt_or_gt_of_ne hne with h | h
        · exact Or.inr (Or.inl (by simpa [intLess] using h))
        · exact Or.inr (Or.inr (Or.inl (by simpa [intLess] using h))))
    (initScoreState.sampleMetrics.networkPacketsReceived, initScoreState.bestNetRecNode)
  have hsent := track_perm intLess_asymm intLess_trans
    (hl.map fun e => (e.1, e.2.networkPacketsSent))
    (by
      intro x hx y hy
      obtain ⟨a, ha, rfl⟩ := List.mem_map.1 hx
      obtain ⟨b, hb, rfl⟩ := List.mem_map.1 hy
      rcases hun a ha b hb with h | h
      · left; rw [h]
      · have hne := h.2.2.2.1
        rcases lt_or_gt_of_ne hne with h | h
        · exact Or.inr (Or.inl (by simpa [intLess] using h))
        · exact Or.inr (Or.inr (Or.inl (by simpa [intLess] using h))))
    (initScoreState.sampleMetrics.networkPacketsSent, initScoreState.bestNetSentNode)
  have hdisk := track_perm diskBetter_asymm diskBetter_trans
    (hl.map fun e => (e.1, e.2.diskIONow))
    (by
      intro x hx y hy
      obtain ⟨a, ha, rfl⟩ := List.mem_map.1 hx
      obtain ⟨b, hb, rfl⟩ := List.mem_map.1 hy
      rcases hun a ha b hb with h | h
      · left; rw [h]
      · have hd := h.2.2.2.2
        by_cases ha0 : a.2.diskIONow = 0
        · exact Or.inr (Or.inr (Or.inr (Or.inl (fun v => by simp [diskBetter, ha0]))))
        · by_cases hb0 : b.2.diskIONow = 0
          · exact Or.inr (Or.inr (Or.inr (Or.inr (fun v => by simp [diskBetter, hb0]))))
          · have hne : a.2.diskIONow ≠ b.2.diskIONow := by
              rcases hd with hd | hd
              · exact hd
              · exact absurd hd.1 ha0
            rcases lt_or_gt_of_ne hne with h | h
            · exact Or.inr (Or.inl (by simp [diskBetter, h, ha0]))
            · exact Or.inr (Or.inr (Or.inl (by simp [diskBetter, h, hb0]))))
    (initScoreState.sampleMetrics.diskIONow, initScoreState.bestDiskNode)
  have hbwl : ∀ e ∈ l, F64.gt e.2.networkBandwith
      initScoreState.sampleMetrics.networkBandwith = false :=
    fun e he => hbw e (hl.mem_iff.1 he)
  have hbwm : ∀ e ∈ m, F64.gt e.2.networkBandwith
      initScoreState.sampleMetrics.networkBandwith = false := hbw
  rw [← foldl_scoreStep_cpu l, ← foldl_scoreStep_cpu m] at hcpu
  rw [← foldl_scoreStep_mem l, ← foldl_scoreStep_mem m] at hmem
  rw [← foldl_scoreStep_rec l, ← foldl_scoreStep_rec m] at hrec
  rw [← foldl_scoreStep_sent l _ hbwl, ← foldl_scoreStep_sent m _ hbwm] at hsent
  rw [← foldl_scoreStep_disk l, ← foldl_scoreStep_disk m] at hdisk
  refine ⟨congrArg Prod.snd hcpu, congrArg Prod.snd hmem, congrArg Prod.snd hsent,
    congrArg Prod.snd hrec, ?_, congrArg Prod.snd hdisk⟩
  rw [scoringLoop_bestNetBandwith, scoringLoop_bestNetBandwith]

theorem prioritizeScores_perm {m l : List (String × PrometheusNodeMetrics)}
    (huntied : ∀ x ∈ m, ∀ y ∈ m, x = y ∨ Untied x y)
    (hbw : ∀ x ∈ m, F64.gt x.2.networkBandwith (F64.fin 0) = false) (hl : l.Perm m) :
    prioritizeScores l = prioritizeScores m := by
  obtain ⟨h1, h2, h3, h4, h5, h6⟩ := scoringLoop_perm huntied hbw hl
  unfold prioritizeScores award
  rw [h1, h2, h3, h4, h5, h6]

/-- When one key alone holds the highest score, `findBestNode` returns it in
every order of visiting the table. -/
theorem findBestNode_perm {m : List (String × PrometheusNodeMetrics)} {t₁ t₂ : PriorityTable}
    (htop : UniqueTop (prioritizeScores m)) (h₁ : t₁.Perm (prioritizeScores m))
    (h₂ : t₂.Perm (prioritizeScores m)) : findBestNode t₁ = findBestNode t₂ := by
  obtain ⟨v₁, hv₁, _, _, hmax₁⟩ := findBestNode_prioritizeScores h₁
  obtain ⟨v₂, hv₂, _, _, hmax₂⟩ := findBestNode_prioritizeScores h₂
  have hget : ∀ x ∈ prioritizeScores m, (prioritizeScores m).get x.1 = x.2 :=
    fun x hx => PriorityTable.get_eq_of_mem (prioritizeScores_nodup m) hx
  exact htop _ hv₁ _ hv₂ (fun x hx => by rw [← hget x hx]; exact hmax₁ x.1)
    (fun x hx => by rw [← hget x hx]; exact hmax₂ x.1)

/-! ## The claims about the scorer -/

set_option maxRecDepth 100000

/-- C1 (the code at the failing input).  With `raspiworker1` holding the highest
bandwidth and `raspiworker0` the fewest sent packets, the bandwidth weight 3 is
added to the entry of the placeholder `"none"` and the sent-packets weight 1 to
`raspiworker1`; for every snapshot map the tracker `bestNetBandwith` still
holds `"none"` after the loop. -/
theorem bandwidth_weight_goes_to_none :
    prioritizeScores bandwidthInput =
        [("ubuntu", 0), ("raspiworker0", 3), ("raspiworker1", 3), ("raspiworker2", 2),
         ("raspiworker3", 0), ("none", 3)] ∧
      (scoringLoop bandwidthInput).bestNetSentNode = "raspiworker1" ∧
      ∀ m, (scoringLoop m).bestNetBandwith = "none" ∧ 3 ≤ (prioritizeScores m).get "none" :=
  ⟨by decide, by decide, fun m => ⟨scoringLoop_bestNetBandwith m, prioritizeScores_none m⟩⟩

/-- C3.  For every snapshot map, the scores of the table returned by
`prioritize` sum to at most 11, and the score of the node that `findBestNode`
returns, in whatever order it visits the table, is between 0 and 11. -/
theorem total_and_winner_score_at_most_eleven (m : List (String × PrometheusNodeMetrics))
    (t : PriorityTable) (_ht : t.Perm (prioritizeScores m)) :
    (prioritizeScores m).total ≤ 11 ∧
      0 ≤ (prioritizeScores m).get (findBestNode t) ∧
      (prioritizeScores m).get (findBestNode t) ≤ 11 :=
  ⟨le_of_eq (prioritizeScores_total m), prioritizeScores_get_bounds m _⟩

theorem total_and_winner_score_at_most_eleven_witness :
    (prioritizeScores bandwidthInput).reverse.Perm (prioritizeScores bandwidthInput) ∧
      (prioritizeScores bandwidthInput).total ≤ 11 ∧
      0 ≤ (prioritizeScores bandwidthInput).get
        (findBestNode (prioritizeScores bandwidthInput).reverse) ∧
      (prioritizeScores bandwidthInput).get
        (findBestNode (prioritizeScores bandwidthInput).reverse) ≤ 11 :=
  ⟨List.reverse_perm _,
    total_and_winner_score_at_most_eleven bandwidthInput _ (List.reverse_perm _)⟩

/-- C9.  When some entry of the table is positive, `findBestNode` returns the
key of an entry whose score is at least the score of every entry; when no entry
is positive (the empty table included) it returns the empty string. -/
theorem findBestNode_returns_highest_or_empty (priorities : PriorityTable) :
    ((∃ e ∈ priorities, 0 < e.2) →
        ∃ v, (findBestNode priorities, v) ∈ priorities ∧ ∀ e ∈ priorities, e.2 ≤ v) ∧
      ((∀ e ∈ priorities, e.2 ≤ 0) → findBestNode priorities = "") := by
  constructor
  · intro h
    obtain ⟨v, hv, _, hmax⟩ := findBestNode_of_pos h
    exact ⟨v, hv, hmax⟩
  · exact findBestNode_of_not_pos

theorem findBestNode_returns_highest_or_empty_witness :
    (∃ e ∈ sampleTable, 0 < e.2) ∧ (∀ e ∈ zeroTable, e.2 ≤ 0) ∧
      (∃ v, (findBestNode sampleTable, v) ∈ sampleTable ∧ ∀ e ∈ sampleTable, e.2 ≤ v) ∧
      findBestNode zeroTable = "" ∧ findBestNode [] = "" :=
  ⟨by decide, by decide,
    (findBestNode_returns_highest_or_empty sampleTable).1 (by decide),
    (findBestNode_returns_highest_or_empty zeroTable).2 (by decide),
    (findBestNode_returns_highest_or_empty []).2 (by decide)⟩

/-- C10 (counterexample).  With no disk I/O in flight and no measured bandwidth
on any of the five nodes, the placeholder `"none"`, which is the name of no
snapshot, collects 4 points and is returned by `findBestNode`. -/
theorem findBestNode_returns_placeholder :
    findBestNode (prioritizeScores idleInput) = "none" ∧
      "none" ∉ idleInput.map Prod.fst ∧
      prioritizeScores idleInput =
        [("ubuntu", 3), ("raspiworker0", 2), ("raspiworker1", 1), ("raspiworker2", 1),
         ("raspiworker3", 0), ("none", 4)] := by
  decide

/-- C10 (amended).  For every snapshot map and every order in which the table
is visited, `findBestNode` applied to the table of `prioritize` returns the
name of a scored node or the placeholder `"none"`. -/
theorem findBestNode_scored_or_placeholder (m : List (String × PrometheusNodeMetrics))
    (t : PriorityTable) (ht : t.Perm (prioritizeScores m)) :
    findBestNode t ∈ m.map Prod.fst ∨ findBestNode t = "none" := by
  obtain ⟨v, hv, hpos, _, _⟩ := findBestNode_prioritizeScores ht
  rcases prioritizeScores_pos_key hv hpos with h | h
  · exact Or.inr h
  · exact Or.inl h

theorem findBestNode_scored_or_placeholder_witness :
    (prioritizeScores tiedInput).reverse.Perm (prioritizeScores tiedInput) ∧
      (findBestNode (prioritizeScores tiedInput).reverse ∈ tiedInput.map Prod.fst ∨
        findBestNode (prioritizeScores tiedInput).reverse = "none") :=
  ⟨List.reverse_perm _, findBestNode_scored_or_placeholder tiedInput _ (List.reverse_perm _)⟩

/-- C2 (counterexample).  The two tied workers visited in either order: the
same five snapshots give the winner `raspiworker0` in one order of the snapshot
map and `raspiworker1` in the other. -/
theorem winner_depends_on_iteration_order :
    tiedInputSwapped.Perm tiedInput ∧
      findBestNode (prioritizeScores tiedInput) = "raspiworker0" ∧
      findBestNode (prioritizeScores tiedInputSwapped) = "raspiworker1" :=
  ⟨List.Perm.cons _ (List.Perm.swap _ _ _), by decide, by decide⟩

/-- C2 (amended).  For snapshots of which no two tie on CPU frequency, occupied
memory, received packets, sent packets or nonzero disk I/O, and of which no
bandwidth reading is above the initial 0, `prioritize` returns the same table
for every order of visiting the snapshot map; when one key alone holds the
highest score of that table, `findBestNode` returns the same name for every
order of visiting the table. -/
theorem winner_independent_of_order_without_ties
    (m l₁ l₂ : List (String × PrometheusNodeMetrics)) (t₁ t₂ : PriorityTable)
    (huntied : ∀ x ∈ m, ∀ y ∈ m, x = y ∨ Untied x y)
    (hbw : ∀ x ∈ m, F64.gt x.2.networkBandwith (F64.fin 0) = false)
    (htop : UniqueTop (prioritizeScores m))
    (hl₁ : l₁.Perm m) (hl₂ : l₂.Perm m)
    (ht₁ : t₁.Perm (prioritizeScores l₁)) (ht₂ : t₂.Perm (prioritizeScores l₂)) :
    prioritizeScores l₁ = prioritizeScores l₂ ∧ findBestNode t₁ = findBestNode t₂ := by
  have e₁ := prioritizeScores_perm huntied hbw hl₁
  have e₂ := prioritizeScores_perm huntied hbw hl₂
  rw [e₁] at ht₁
  rw [e₂] at ht₂
  exact ⟨e₁.trans e₂.symm, findBestNode_perm htop ht₁ ht₂⟩

theorem winner_independent_of_order_without_ties_witness :
    (∀ x ∈ idleInput, ∀ y ∈ idleInput, x = y ∨ Untied x y) ∧
      (∀ x ∈ idleInput, F64.gt x.2.networkBandwith (F64.fin 0) = false) ∧
      UniqueTop (prioritizeScores idleInput) ∧
      prioritizeScores idleInput.reverse = prioritizeScores idleInput ∧
      findBestNode (prioritizeScores idleInput.reverse).reverse =
        findBestNode (prioritizeScores idleInput) :=
  ⟨by decide, by decide, by decide,
    winner_independent_of_order_without_ties idleInput idleInput.reverse idleInput
      (prioritizeScores idleInput.reverse).reverse (prioritizeScores idleInput)
      (by decide) (by decide) (by decide) (List.reverse_perm _) (List.Perm.refl _)
      (List.reverse_perm _) (List.Perm.refl _)⟩

/-- C4 (counterexample).  With 100 received and sent packets, a bandwidth of
1000000 and no disk I/O on each of A, B, C, visited in this order, B scores 3,
not 5, and `findBestNode` returns A. -/
theorem scenario_winner_is_not_B :
    (prioritizeScores [scenarioA 100 100 (F64.fin 1000000) 0,
        scenarioB 100 100 (F64.fin 1000000) 0, scenarioC 100 100 (F64.fin 1000000) 0]).get "B"
        = 3 ∧
      findBestNode (prioritizeScores [scenarioA 100 100 (F64.fin 1000000) 0,
        scenarioB 100 100 (F64.fin 1000000) 0, scenarioC 100 100 (F64.fin 1000000) 0]) = "A" := by
  decide

/-- C4 (amended).  For the snapshots A, B, C of the scenario, whatever the common
values of the four other metrics and whatever the order of visiting: the CPU
tracker ends on B and the memory tracker on A, the node with the lowest occupied
memory; the score of B is at least 3 and that of A at least 2, and the score of
B is exactly 3 when B is not visited first; `findBestNode` returns B only if no
score is higher than that of B. -/
theorem scenario_scores (r s : Int) (bw : F64) (d : Int)
    (l : List (String × PrometheusNodeMetrics)) (t : PriorityTable)
    (hl : l.Perm [scenarioA r s bw d, scenarioB r s bw d, scenarioC r s bw d])
    (ht : t.Perm (prioritizeScores l)) :
    (scoringLoop l).bestCpuNode = "B" ∧ (scoringLoop l).bestMemNode = "A" ∧
      3 ≤ (prioritizeScores l).get "B" ∧ 2 ≤ (prioritizeScores l).get "A" ∧
      (l.head? ≠ some (scenarioB r s bw d) → (prioritizeScores l).get "B" = 3) ∧
      (findBestNode t = "B" → ∀ k, (prioritizeScores l).get k ≤ (prioritizeScores l).get "B") := by
  -- the CPU tracker
  have hcpu : (scoringLoop l).bestCpuNode = "B" := by
    have h := foldl_scoreStep_cpu l initScoreState
    have hperm : [("A", F64.fin 1200000000), ("B", F64.fin 800000000),
        ("C", F64.fin 2000000000)].Perm (l.map fun e => (e.1, e.2.cpuFrequencyHertz)) :=
      (hl.map fun (e : String × PrometheusNodeMetrics) => (e.1, e.2.cpuFrequencyHertz)).symm
    have hp := track_perm F64.lt_asymm F64.lt_trans hperm
      (fun x hx y hy =>
        (show ∀ x ∈ [("A", F64.fin 1200000000), ("B", F64.fin 800000000),
              ("C", F64.fin 2000000000)],
            ∀ y ∈ [("A", F64.fin 1200000000), ("B", F64.fin 800000000),
              ("C", F64.fin 2000000000)],
            x = y ∨ F64.lt x.2 y.2 = true ∨ F64.lt y.2 x.2 = true by decide) x hx y hy
          |>.imp_right (fun h => h.imp_right Or.inl))
      (initScoreState.sampleMetrics.cpuFrequencyHertz, initScoreState.bestCpuNode)
    rw [← hp] at h
    have hv : List.foldl (trackStep F64.lt)
        (initScoreState.sampleMetrics.cpuFrequencyHertz, initScoreState.bestCpuNode)
        [("A", F64.fin 1200000000), ("B", F64.fin 800000000), ("C", F64.fin 2000000000)] =
        (F64.fin 800000000, "B") := by decide
    exact (congrArg Prod.snd h).trans (congrArg Prod.snd hv)
  -- the memory tracker
  have hmem : (scoringLoop l).bestMemNode = "A" := by
    have h := foldl_scoreStep_mem l initScoreState
    have hperm : [("A", F64.fin 40), ("B", F64.fin 70), ("C", F64.fin 55)].Perm
        (l.map fun e => (e.1, e.2.occupiedMemoryPercentage)) :=
      (hl.map fun (e : String × PrometheusNodeMetrics) =>
        (e.1, e.2.occupiedMemoryPercentage)).symm
    have hp := track_perm F64.lt_asymm F64.lt_trans hperm
      (fun x hx y hy =>
        (show ∀ x ∈ [("A", F64.fin 40), ("B", F64.fin 70), ("C", F64.fin 55)],
            ∀ y ∈ [("A", F64.fin 40), ("B", F64.fin 70), ("C", F64.fin 55)],
            x = y ∨ F64.lt x.2 y.2 = true ∨ F64.lt y.2 x.2 = true by decide) x hx y hy
          |>.imp_right (fun h => h.imp_right Or.inl))
      (initScoreState.sampleMetrics.occupiedMemoryPercentage, initScoreState.bestMemNode)
    rw [← hp] at h
    have hv : List.foldl (trackStep F64.lt)
        (initScoreState.sampleMetrics.occupiedMemoryPercentage, initScoreState.bestMemNode)
        [("A", F64.fin 40), ("B", F64.fin 70), ("C", F64.fin 55)] = (F64.fin 40, "A") := by
      decide
    exact (congrArg Prod.snd h).trans (congrArg Prod.snd hv)
  have hbw := scoringLoop_bestNetBandwith l
  -- the score of B
  have hget : (prioritizeScores l).get "B" =
      3 + (if (scoringLoop l).bestNetSentNode = "B" then 1 else 0) +
        (if (scoringLoop l).bestNetRecNode = "B" then 1 else 0) +
        (if (scoringLoop l).bestDiskNode = "B" then 1 else 0) := by
    unfold prioritizeScores
    rw [award_get, hcpu, hmem, hbw]
    have h0 : initNodePriorities.get "B" = 0 := by decide
    rw [h0]
    simp only [if_true, show ¬ ("A" : String) = "B" by decide,
      show ¬ ("none" : String) = "B" by decide, if_false]
    ring
  refine ⟨hcpu, hmem, ?_, ?_, ?_, ?_⟩
  · rw [hget]; split_ifs <;> omega
  · unfold prioritizeScores
    rw [award_get, hcpu, hmem, hbw]
    have h0 : initNodePriorities.get "A" = 0 := by decide
    rw [h0]
    simp only [if_true, show ¬ ("B" : String) = "A" by decide,
      show ¬ ("none" : String) = "A" by decide, if_false]
    split_ifs <;> omega
  · intro hhead
    -- the first entry is A or C, and every entry has the common readings
    have hall : ∀ e ∈ l, e.2.networkPacketsReceived = r ∧ e.2.networkPacketsSent = s ∧
        e.2.networkBandwith = bw ∧ e.2.diskIONow = d := by
      intro e he
      have := hl.mem_iff.1 he
      simp only [List.mem_cons, List.mem_singleton, List.not_mem_nil, or_false] at this
      rcases this with h | h | h <;> rw [h] <;> exact ⟨rfl, rfl, rfl, rfl⟩
    cases l with
    | nil => exact absurd hl.length_eq (by simp)
    | cons h rest =>
      have hh := hall h (List.mem_cons_self _ _)
      have hrest := fun e (he : e ∈ rest) => hall e (List.mem_cons_of_mem _ he)
      have hname : h.1 ≠ "B" := by
        have hm := hl.mem_iff.1 (List.mem_cons_self h rest)
        simp only [List.mem_cons, List.mem_singleton, List.not_mem_nil, or_false] at hm
        rcases hm with hm | hm | hm
        · rw [hm]; simp [scenarioA]
        · exact absurd (by rw [hm]; rfl) hhead
        · rw [hm]; simp [scenarioC]
      have hnone : ("none" : String) ≠ "B" := by decide
      have hrec : (scoringLoop (h :: rest)).bestNetRecNode ≠ "B" := by
        have e := foldl_scoreStep_rec (h :: rest) initScoreState
        rw [List.map_cons, track_of_all_eq (fun a => by simp [intLess]) r _ _ hh.1
          (fun e he => by
            obtain ⟨x, hx, rfl⟩ := List.mem_map.1 he
            exact (hrest x hx).1)] at e
        have e2 := congrArg Prod.snd e
        simp only [trackStep] at e2
        unfold scoringLoop
        rw [e2]
        split_ifs
        · exact hname
        · exact hnone
      have hdisk : (scoringLoop (h :: rest)).bestDiskNode ≠ "B" := by
        have e := foldl_scoreStep_disk (h :: rest) initScoreState
        rw [List.map_cons, track_of_all_eq (fun a => by simp [diskBetter]) d _ _ hh.2.2.2
          (fun e he => by
            obtain ⟨x, hx, rfl⟩ := List.mem_map.1 he
            exact (hrest x hx).2.2.2)] at e
        have e2 := congrArg Prod.snd e
        simp only [trackStep] at e2
        unfold scoringLoop
        rw [e2]
        split_ifs
        · exact hname
        · exact hnone
      have hsent : (scoringLoop (h :: rest)).bestNetSentNode ≠ "B" := by
        unfold scoringLoop
        rw [foldl_scoreStep_sent_of_all_eq s bw h rest ⟨hh.2.1, hh.2.2.1⟩
          (fun e he => ⟨(hrest e he).2.1, (hrest e he).2.2.1⟩), scoreStep_eq]
        simp only []
        split_ifs
        · exact hname
        · exact hname
        · exact hnone
      rw [hget]
      simp [hrec, hdisk, hsent]
  · intro hwin k
    obtain ⟨v, _, _, hv, hmax⟩ := findBestNode_prioritizeScores ht
    rw [hwin] at hv
    rw [hv]
    exact hmax k

theorem scenario_scores_witness :
    [scenarioC 100 100 (F64.fin 1000000) 0, scenarioA 100 100 (F64.fin 1000000) 0,
        scenarioB 100 100 (F64.fin 1000000) 0].Perm
        [scenarioA 100 100 (F64.fin 1000000) 0, scenarioB 100 100 (F64.fin 1000000) 0,
          scenarioC 100 100 (F64.fin 1000000) 0] ∧
      (prioritizeScores [scenarioC 100 100 (F64.fin 1000000) 0,
        scenarioA 100 100 (F64.fin 1000000) 0, scenarioB 100 100 (F64.fin 1000000) 0]).get "B"
        = 3 :=
  ⟨by decide,
    (scenario_scores 100 100 (F64.fin 1000000) 0 _ _ (by decide) (List.Perm.refl _)).2.2.2.2.1
      (by decide)⟩

/-! ## Facts about the parsers -/

theorem stringsIndexFrom_bounds (substr s : List Char) (i : Nat) :
    -1 ≤ stringsIndexFrom substr s i ∧ stringsIndexFrom substr s i ≤ (i + s.length : Nat) := by
  induction s generalizing i with
  | nil =>
    unfold stringsIndexFrom
    split <;> simp <;> omega
  | cons c rest ih =>
    unfold stringsIndexFrom
    split
    · constructor
      · omega
      · simp only [List.length_cons]; omega
    · obtain ⟨h1, h2⟩ := ih (i + 1)
      constructor
      · exact h1
      · simp only [List.length_cons]
        have : (i + 1 + rest.length : Nat) = (i + (rest.length + 1) : Nat) := by omega
        rw [← this]; exact h2

theorem stringsIndex_bounds (s substr : List Char) :
    -1 ≤ stringsIndex s substr ∧ stringsIndex s substr ≤ (s.length : Int) := by
  have h := stringsIndexFrom_bounds substr s 0
  simp only [Nat.zero_add] at h
  exact h

/-- The slice between two labels is taken exactly when it is in range; otherwise
the slice expression panics. -/
theorem between_eq (body : List Char) (start : String) (skip : Int) (stop : String)
    (hskip : 1 ≤ skip) :
    between body start skip stop =
      if InRange body start skip stop then
        .ok ((body.drop (stringsIndex body start.toList + skip).toNat).take
          ((stringsIndex body stop.toList - 1).toNat -
            (stringsIndex body start.toList + skip).toNat))
      else .error .sliceBounds := by
  have h1 := stringsIndex_bounds body start.toList
  have h2 := stringsIndex_bounds body stop.toList
  unfold between goSlice InRange
  by_cases h : stringsIndex body start.toList + skip ≤ stringsIndex body stop.toList - 1
  · rw [if_pos ⟨by omega, h, by omega⟩, if_pos h]
  · rw [if_neg (fun hc => h hc.2.1), if_neg h]

/-! ## The claims about telemetry, admission and the scheduling loop -/

/-- C7 (counterexample).  With the sample of `cpu="1"` missing, the first slice
expression of `getCurrentCPUUsage` panics; with the sample of `cpu="0"`
unparsable and the three others equal to 600, the function returns 450, a
quarter of their sum, not their mean 600. -/
theorem getCurrentCPUUsage_missing_or_unparsable_sample :
    getCurrentCPUUsage exactLib missingSampleBody = .error .sliceBounds ∧
      getCurrentCPUUsage exactLib
        (workerBody "x" "600" "600" "600" "1000" "400" "30" "80" "0") = .ok (F64.fin 450) := by
  decide!

/-- C7 (amended).  For every exposition text in which the slice of each of the
four samples is in range, `getCurrentCPUUsage` does not panic and returns a
quarter of the sum of four values: what `ParseFloat` returned for the first
three slices and, for the fourth, what it returned or, when that parse failed,
the value of the third. -/
theorem getCurrentCPUUsage_of_inRange (lib : GoLib) (body : List Char)
    (h0 : InRange body (cpuLabel "0") 42 (cpuLabel "1"))
    (h1 : InRange body (cpuLabel "1") 42 (cpuLabel "2"))
    (h2 : InRange body (cpuLabel "2") 42 (cpuLabel "3"))
    (h3 : InRange body (cpuLabel "3") 42 cpuStop) :
    ∃ s0 s1 s2 s3,
      between body (cpuLabel "0") 42 (cpuLabel "1") = .ok s0 ∧
      between body (cpuLabel "1") 42 (cpuLabel "2") = .ok s1 ∧
      between body (cpuLabel "2") 42 (cpuLabel "3") = .ok s2 ∧
      between body (cpuLabel "3") 42 cpuStop = .ok s3 ∧
      getCurrentCPUUsage lib body =
        .ok (lib.div
          (lib.add (lib.add (lib.add (lib.parseFloat s0).1 (lib.parseFloat s1).1)
              (lib.parseFloat s2).1)
            (if (lib.parseFloat s3).2 then (lib.parseFloat s2).1 else (lib.parseFloat s3).1))
          (F64.fin 4)) := by
  have e0 := between_eq body (cpuLabel "0") 42 (cpuLabel "1") (by decide)
  have e1 := between_eq body (cpuLabel "1") 42 (cpuLabel "2") (by decide)
  have e2 := between_eq body (cpuLabel "2") 42 (cpuLabel "3") (by decide)
  have e3 := between_eq body (cpuLabel "3") 42 cpuStop (by decide)
  rw [if_pos h0] at e0
  rw [if_pos h1] at e1
  rw [if_pos h2] at e2
  rw [if_pos h3] at e3
  refine ⟨_, _, _, _, e0, e1, e2, e3, ?_⟩
  unfold getCurrentCPUUsage
  rw [e0, e1, e2, e3]
  rfl

/-- When one of the four slices is out of range, in particular when the label
that ends it is missing, `getCurrentCPUUsage` panics. -/
theorem getCurrentCPUUsage_panics_out_of_range (lib : GoLib) (body : List Char)
    (h : ¬ InRange body (cpuLabel "0") 42 (cpuLabel "1") ∨
      ¬ InRange body (cpuLabel "1") 42 (cpuLabel "2") ∨
      ¬ InRange body (cpuLabel "2") 42 (cpuLabel "3") ∨
      ¬ InRange body (cpuLabel "3") 42 cpuStop) :
    getCurrentCPUUsage lib body = .error .sliceBounds := by
  have e0 := between_eq body (cpuLabel "0") 42 (cpuLabel "1") (by decide)
  have e1 := between_eq body (cpuLabel "1") 42 (cpuLabel "2") (by decide)
  have e2 := between_eq body (cpuLabel "2") 42 (cpuLabel "3") (by decide)
  have e3 := between_eq body (cpuLabel "3") 42 cpuStop (by decide)
  unfold getCurrentCPUUsage
  rw [e0, e1, e2, e3]
  by_cases h0 : InRange body (cpuLabel "0") 42 (cpuLabel "1")
  · by_cases h1 : InRange body (cpuLabel "1") 42 (cpuLabel "2")
    · by_cases h2 : InRange body (cpuLabel "2") 42 (cpuLabel "3")
      · have h3 : ¬ InRange body (cpuLabel "3") 42 cpuStop := by
          rcases h with h | h | h | h
          · exact absurd h0 h
          · exact absurd h1 h
          · exact absurd h2 h
          · exact h
        rw [if_pos h0, if_pos h1, if_pos h2, if_neg h3]
        rfl
      · rw [if_pos h0, if_pos h1, if_neg h2]
        rfl
    · rw [if_pos h0, if_neg h1]
      rfl
  · rw [if_neg h0]
    rfl

/-- A slice whose end label is missing is out of range. -/
theorem not_inRange_of_missing (body : List Char) (start stop : String) (skip : Int)
    (hskip : 1 ≤ skip) (h : stringsIndex body stop.toList = -1) :
    ¬ InRange body start skip stop := by
  have h1 := stringsIndex_bounds body start.toList
  unfold InRange
  omega

theorem getCurrentCPUUsage_of_inRange_witness :
    InRange eightCoreBody (cpuLabel "0") 42 (cpuLabel "1") ∧
      InRange eightCoreBody (cpuLabel "1") 42 (cpuLabel "2") ∧
      InRange eightCoreBody (cpuLabel "2") 42 (cpuLabel "3") ∧
      InRange eightCoreBody (cpuLabel "3") 42 cpuStop ∧
      ∃ s0 s1 s2 s3,
        between eightCoreBody (cpuLabel "0") 42 (cpuLabel "1") = .ok s0 ∧
        between eightCoreBody (cpuLabel "1") 42 (cpuLabel "2") = .ok s1 ∧
        between eightCoreBody (cpuLabel "2") 42 (cpuLabel "3") = .ok s2 ∧
        between eightCoreBody (cpuLabel "3") 42 cpuStop = .ok s3 ∧
        getCurrentCPUUsage exactLib eightCoreBody =
          .ok (exactLib.div
            (exactLib.add
              (exactLib.add
                (exactLib.add (exactLib.parseFloat s0).1 (exactLib.parseFloat s1).1)
                (exactLib.parseFloat s2).1)
              (if (exactLib.parseFloat s3).2 then (exactLib.parseFloat s2).1
                else (exactLib.parseFloat s3).1))
            (F64.fin 4)) ∧
        getCurrentCPUUsage exactLib eightCoreBody = .ok (F64.fin 850) := by
  obtain ⟨s0, s1, s2, s3, e0, e1, e2, e3, h⟩ :=
    getCurrentCPUUsage_of_inRange exactLib eightCoreBody (by decide) (by decide) (by decide)
      (by decide)
  exact ⟨by decide, by decide, by decide, by decide, s0, s1, s2, s3, e0, e1, e2, e3, h,
    by decide!⟩

/-- C8.  A pod handed to the add handler is appended to the pod queue exactly
when its `Spec.NodeName` is empty and its `Spec.SchedulerName` is
`"netAwareScheduler"`, and otherwise the queue is unchanged; an object that is
not a pod leaves the queue unchanged. -/
theorem podAddFunc_enqueues_iff (podQueue : List Pod) (pod : Pod) :
    (podAddFunc podQueue (.pod pod) = podQueue ++ [pod] ↔
        pod.NodeName = "" ∧ pod.SchedulerName = "netAwareScheduler") ∧
      (podAddFunc podQueue (.pod pod) = podQueue ↔
        ¬ (pod.NodeName = "" ∧ pod.SchedulerName = "netAwareScheduler")) ∧
      podAddFunc podQueue .other = podQueue ∧
      SchedulerName = "netAwareScheduler" := by
  have hne : podQueue ++ [pod] ≠ podQueue := by
    intro h
    have := congrArg List.length h
    simp at this
  refine ⟨?_, ?_, rfl, rfl⟩
  · unfold podAddFunc
    simp only [SchedulerName]
    by_cases hc : pod.NodeName = "" ∧ pod.SchedulerName = "netAwareScheduler"
    · simp [hc]
    · simp only [hc, if_false, iff_false]
      exact fun h => hne h.symm
  · unfold podAddFunc
    simp only [SchedulerName]
    by_cases hc : pod.NodeName = "" ∧ pod.SchedulerName = "netAwareScheduler"
    · simp only [hc, and_self, if_true, not_true, iff_false]
      exact hne
    · simp [hc]

/-- The key `"raspiworker3"` is not in `nodeNames`, so its path is empty and
cannot be opened: `getNetworkBandwith` panics for this node in every
environment. -/
theorem getNetworkBandwith_raspiworker3 (env : Env) :
    getNetworkBandwith env "raspiworker3" = .error .indexOutOfRange := by
  have hpath : (nodeNames.lookup "raspiworker3").getD "" = "" := by decide
  unfold getNetworkBandwith osOpen
  simp only [hpath, if_true, Option.getD_none]

/-- When the benchmark file of a node cannot be opened, `getNetworkBandwith`
panics for this node. -/
theorem getNetworkBandwith_unopened (env : Env) (node : String)
    (h : osOpen env ((nodeNames.lookup node).getD "") = none) :
    getNetworkBandwith env node = .error .indexOutOfRange := by
  unfold getNetworkBandwith
  simp only [h, Option.getD_none]

/-- When the request to the agent of a node fails, `makeHttpRequest` panics. -/
theorem makeHttpRequest_failed (env : Env) (address : String)
    (h : env.httpGet address = none) :
    makeHttpRequest env address = .error .nilDereference := by
  unfold makeHttpRequest
  rw [h]

/-- The part of `prioritize` that collects the snapshots returns no snapshot
map: it panics in every environment. -/
theorem buildNodeMetricsMap_panics (lib : GoLib) (env : Env) :
    ∃ p, buildNodeMetricsMap lib env = .error p := by
  have hw : ∀ body v, workerMetrics lib env "raspiworker3" body ≠ .ok v := by
    intro body v
    unfold workerMetrics
    simp only [bind, Except.bind, getNetworkBandwith_raspiworker3 env]
    repeat' split
    all_goals simp
  unfold buildNodeMetricsMap
  simp only [bind, Except.bind]
  repeat' split
  all_goals first
    | exact ⟨_, rfl⟩
    | (rename_i heq; exact absurd heq (hw _ _))

theorem prioritize_of_panic {lib : GoLib} {env : Env} (order : RangeOrder)
    (nodes : List String) (pod : String) {p : GoPanic}
    (hm : buildNodeMetricsMap lib env = .error p) :
    prioritize lib env order nodes pod = .error p := by
  unfold prioritize
  rw [hm]
  rfl

theorem findNodesThatFit_of_list_error {lib : GoLib} {env : Env} {order : RangeOrder}
    {cluster : Cluster} (p : Pod) {err : String} (herr : cluster.listNodes = .error err) :
    findNodesThatFit lib env order cluster p = .ok ("", some err) := by
  unfold findNodesThatFit
  rw [herr]
  rfl

theorem findNodesThatFit_of_panic {lib : GoLib} {env : Env} {order : RangeOrder}
    {cluster : Cluster} (p : Pod) {nodes : List String} {e : GoPanic}
    (hnodes : cluster.listNodes = .ok nodes) (hm : buildNodeMetricsMap lib env = .error e) :
    findNodesThatFit lib env order cluster p = .error e := by
  unfold findNodesThatFit
  rw [hnodes]
  simp only [prioritize_of_panic order nodes p.Name hm]
  rfl

theorem Schedule_of_error {lib : GoLib} {env : Env} {order : RangeOrder} {cluster : Cluster}
    {p : Pod} {name err : String}
    (hf : findNodesThatFit lib env order cluster p = .ok (name, some err)) :
    Schedule lib env order cluster p = .ok [] := by
  unfold Schedule
  rw [hf]
  rfl

theorem Schedule_of_panic {lib : GoLib} {env : Env} {order : RangeOrder} {cluster : Cluster}
    {p : Pod} {e : GoPanic} (hf : findNodesThatFit lib env order cluster p = .error e) :
    Schedule lib env order cluster p = .error e := by
  unfold Schedule
  rw [hf]
  rfl

/-- An error returned by `findNodesThatFit` is the error of the node lister. -/
theorem listNodes_of_findNodesThatFit_error {lib : GoLib} {env : Env} {order : RangeOrder}
    {cluster : Cluster} {p : Pod} {name err : String}
    (hf : findNodesThatFit lib env order cluster p = .ok (name, some err)) :
    cluster.listNodes = .error err := by
  unfold findNodesThatFit at hf
  cases hl : cluster.listNodes with
  | error e =>
    rw [hl] at hf
    simp only [pure, Except.pure, Except.ok.injEq, Prod.mk.injEq, Option.some.injEq] at hf
    rw [hf.2]
  | ok nodes =>
    rw [hl] at hf
    simp only [bind, Except.bind, pure, Except.pure] at hf
    split at hf
    · cases hf
    · simp at hf

/-- With every agent answering and every listed benchmark file readable, the
collection of the snapshots panics at the benchmark file of `raspiworker3`. -/
theorem buildNodeMetricsMap_answeringEnv :
    buildNodeMetricsMap exactLib answeringEnv = .error .indexOutOfRange := by
  decide!

/-- C6 (the code at the failing inputs).  When the request to the agent of
`raspiworker1` fails, `prioritize` panics on the nil response; when the
benchmark file of `raspiworker1` cannot be opened, `getNetworkBandwith` panics
at `Streams[0]`; and since the benchmark path of `raspiworker3` is empty,
`getNetworkBandwith` panics for it and `prioritize` returns no table, in every
environment. -/
theorem prioritize_panics_on_failed_fetch :
    prioritize exactLib unreachableEnv insertionOrder
        ["ubuntu", "raspiworker0", "raspiworker1", "raspiworker2", "raspiworker3"] "web" =
        .error .nilDereference ∧
      getNetworkBandwith missingFileEnv "raspiworker1" = .error .indexOutOfRange ∧
      prioritize exactLib answeringEnv insertionOrder
        ["ubuntu", "raspiworker0", "raspiworker1", "raspiworker2", "raspiworker3"] "web" =
        .error .indexOutOfRange ∧
      (∀ env : Env, getNetworkBandwith env "raspiworker3" = .error .indexOutOfRange) ∧
      ∀ (lib : GoLib) (env : Env) (order : RangeOrder) (nodes : List String) (pod : String),
        ∃ p, prioritize lib env order nodes pod = .error p := by
  refine ⟨by decide!, by decide, prioritize_of_panic _ _ _ buildNodeMetricsMap_answeringEnv,
    getNetworkBandwith_raspiworker3, ?_⟩
  intro lib env order nodes pod
  obtain ⟨p, hp⟩ := buildNodeMetricsMap_panics lib env
  exact ⟨p, prioritize_of_panic order nodes pod hp⟩

/-- C5 (counterexample).  The node lister returns the empty node set, every
agent answers and every listed benchmark file is readable: `findNodesThatFit`
returns neither a name nor an error, it panics in `getNetworkBandwith`, and so
does `Schedule`. -/
theorem findNodesThatFit_returns_no_error_on_empty_node_set :
    emptyCluster.listNodes = .ok [] ∧
      findNodesThatFit exactLib answeringEnv insertionOrder emptyCluster examplePod =
        .error .indexOutOfRange ∧
      Schedule exactLib answeringEnv insertionOrder emptyCluster examplePod =
        .error .indexOutOfRange :=
  ⟨rfl, findNodesThatFit_of_panic examplePod rfl buildNodeMetricsMap_answeringEnv,
    Schedule_of_panic (findNodesThatFit_of_panic examplePod rfl buildNodeMetricsMap_answeringEnv)⟩

/-- C5 (amended).  `findNodesThatFit` returns an error if and only if the call
of the node lister returns one, and in that case `Schedule` returns without
sending a bind request or creating an event; the node set that the lister
returns is not consulted: `findNodesThatFit` behaves for every node set as for
the empty one. -/
theorem findNodesThatFit_error_only_from_lister (lib : GoLib) (env : Env) (order : RangeOrder)
    (cluster : Cluster) (p : Pod) :
    (∀ err, cluster.listNodes = .error err →
        findNodesThatFit lib env order cluster p = .ok ("", some err) ∧
        Schedule lib env order cluster p = .ok []) ∧
      (∀ name err, findNodesThatFit lib env order cluster p = .ok (name, some err) →
        cluster.listNodes = .error err) ∧
      (∀ nodes, cluster.listNodes = .ok nodes →
        findNodesThatFit lib env order cluster p =
          findNodesThatFit lib env order ⟨.ok [], cluster.bindFails⟩ p) := by
  refine ⟨?_, ?_, ?_⟩
  · intro err herr
    exact ⟨findNodesThatFit_of_list_error p herr,
      Schedule_of_error (findNodesThatFit_of_list_error p herr)⟩
  · intro name err hf
    exact listNodes_of_findNodesThatFit_error hf
  · intro nodes hnodes
    unfold findNodesThatFit
    rw [hnodes]
    rfl

theorem findNodesThatFit_error_only_from_lister_witness :
    brokenCluster.listNodes = .error "lister unavailable" ∧
      fiveNodeCluster.listNodes =
        .ok ["ubuntu", "raspiworker0", "raspiworker1", "raspiworker2", "raspiworker3"] ∧
      findNodesThatFit exactLib answeringEnv insertionOrder brokenCluster examplePod =
        .ok ("", some "lister unavailable") ∧
      Schedule exactLib answeringEnv insertionOrder brokenCluster examplePod = .ok [] ∧
      findNodesThatFit exactLib answeringEnv insertionOrder fiveNodeCluster examplePod =
        findNodesThatFit exactLib answeringEnv insertionOrder
          ⟨.ok [], fiveNodeCluster.bindFails⟩ examplePod :=
  ⟨rfl, rfl,
    ((findNodesThatFit_error_only_from_lister exactLib answeringEnv insertionOrder
      brokenCluster examplePod).1 "lister unavailable" rfl).1,
    ((findNodesThatFit_error_only_from_lister exactLib answeringEnv insertionOrder
      brokenCluster examplePod).1 "lister unavailable" rfl).2,
    (findNodesThatFit_error_only_from_lister exactLib answeringEnv insertionOrder
      fiveNodeCluster examplePod).2.2 _ rfl⟩

end NetAwareScheduler
